import Mathlib

/-
Verification development for the Desert-Habitat-Interactionator simulator.

Shallow embedding conventions:
* Python floats are embedded as exact rationals (ℚ); every constant that
  appears literally in the sources appears literally here.
* `math.hypot`-based distance comparisons are embedded by their exact
  squared characterisations: for d = hypot(dx, dy) ≥ 0 one has
  d ≤ t ↔ (0 ≤ t ∧ dx² + dy² ≤ t²) and d < t ↔ (0 < t ∧ dx² + dy² < t²),
  so every comparison the code performs on distances is represented by a
  decidable rational predicate with the same truth value.
* Velocity steering (`seek`, `wander`, `move`) renormalises vectors with a
  square root; no claim below constrains velocities or post-steering
  positions, so the agent model omits the velocity pair and the failure
  branches of `try_mate` that only steer/move leave the store unchanged.
* Object references (mating partner, heard_call) are embedded as indices
  into a store `List Agent`, mirroring Python object identity.
-/

namespace Desert

/-- utils.clamp: max(lo, min(hi, x)). -/
def clamp (x lo hi : ℚ) : ℚ := max lo (min hi x)

/-- Squared distance between two points; `dist` in utils.py is its square root. -/
def dist2 (ax ay bx by_ : ℚ) : ℚ := (ax - bx) ^ 2 + (ay - by_) ^ 2

/-- Embeds `dist(...) ≤ t` (hypot is nonneg, so this is the exact squared form). -/
def distLe (ax ay bx by_ t : ℚ) : Prop := 0 ≤ t ∧ dist2 ax ay bx by_ ≤ t ^ 2

/-- Embeds `dist(...) < t`. -/
def distLt (ax ay bx by_ t : ℚ) : Prop := 0 < t ∧ dist2 ax ay bx by_ < t ^ 2

instance (ax ay bx by_ t : ℚ) : Decidable (distLe ax ay bx by_ t) := by
  unfold distLe; infer_instance

instance (ax ay bx by_ t : ℚ) : Decidable (distLt ax ay bx by_ t) := by
  unfold distLt; infer_instance

/-- Genome: the fixed trait record built in `Creature.__init__` (creature.py). -/
structure Genome where
  size : ℚ
  speed : ℚ
  vision : ℚ
  metabolism : ℚ
  aggression : ℚ
  toxin : ℚ
  is_decomposer : Bool
  deriving DecidableEq, Repr

/-- Modelled from the spec: `config.py` is imported by every source module but
is not among the given sources; spec §6 states the numeric constants (energy
costs, thresholds, cooldown durations, ranges) are an injected configuration
structure, so they are carried here as explicit fields. -/
structure Config where
  width : ℚ
  height : ℚ
  matingCost : ℚ
  callDuration : ℚ
  responseCallDuration : ℚ
  toxinThreshold : ℚ
  predationSizeFactor : ℚ
  energyIdleCost : ℚ
  energyMoveCost : ℚ
  energyBaseMax : ℚ
  baseRadius : ℚ
  deriving DecidableEq, Repr

/-- Nest types handled in nest.py. -/
inductive NestType where
  | prey
  | predator
  | decomposer
  deriving DecidableEq, Repr

/-- Nest: zone record (nest.py, class Nest). `score` and wall thickness are
not read by any embedded operation. -/
structure Nest where
  x : ℚ
  y : ℚ
  radius : ℚ
  type : NestType
  deriving DecidableEq, Repr

/-- Nest.contains: dist(center, creature) ≤ radius. -/
def Nest.containsPt (n : Nest) (cx cy : ℚ) : Prop := distLe n.x n.y cx cy n.radius

instance (n : Nest) (cx cy : ℚ) : Decidable (n.containsPt cx cy) := by
  unfold Nest.containsPt; infer_instance

/-- NestManager.can_enter (nest.py lines 54-62). -/
def canEnter (g : Genome) (n : Nest) : Bool :=
  match n.type with
  | .decomposer => g.is_decomposer || decide (g.aggression ≤ 6/10)
  | .predator => decide (g.aggression > 6/10) && !g.is_decomposer
  | .prey => decide (g.aggression ≤ 6/10) || g.is_decomposer

/-- NestManager.__init__: the static three-nest layout. -/
def nestManagerNests (cfg : Config) : List Nest :=
  [ ⟨cfg.width * (2/10), cfg.height * (5/10), 90, .prey⟩,
    ⟨cfg.width * (8/10), cfg.height * (5/10), 90, .predator⟩,
    ⟨cfg.width * (5/10), cfg.height * (2/10), 90, .decomposer⟩ ]

/-- NestManager.get_nest: first nest whose type matches the creature's species. -/
def getNest (nests : List Nest) (g : Genome) : Option Nest :=
  if g.is_decomposer then nests.find? (fun n => n.type == .decomposer)
  else if g.aggression > 6/10 then nests.find? (fun n => n.type == .predator)
  else nests.find? (fun n => n.type == .prey)

/-! ## Scent field (scent.py) -/

/-- CELL_SIZE in scent.py. -/
def cellSize : ℚ := 25

/-- DIFFUSE_RATE in scent.py. -/
def diffuseRate : ℚ := 22/100

/-- DECAY_RATE in scent.py. -/
def decayRate : ℚ := 25/1000

/-- The five scent map keys of `ScentField.maps`. -/
inductive ScentType where
  | food
  | pred
  | prey
  | toxin
  | corpse
  deriving DecidableEq, Repr

/-- Lookup of a scent-type string in the `maps` dictionary; unknown strings
have no map (emit and sample_gradient treat them as no-ops). -/
def scentTypeOfString (s : String) : Option ScentType :=
  if s = "food" then some .food
  else if s = "pred" then some .pred
  else if s = "prey" then some .prey
  else if s = "toxin" then some .toxin
  else if s = "corpse" then some .corpse
  else none

/-- A concentration grid, indexed row-then-column like the numpy arrays;
only indices in [0, rows) × [0, cols) are meaningful. -/
abbrev Grid := ℤ → ℤ → ℚ

/-- ScentField: per-type grids plus the grid dimensions. -/
structure ScentField where
  rows : ℕ
  cols : ℕ
  food : Grid
  pred : Grid
  prey : Grid
  toxin : Grid
  corpse : Grid

/-- The grid stored under a given scent type. -/
def ScentField.getMap (f : ScentField) : ScentType → Grid
  | .food => f.food
  | .pred => f.pred
  | .prey => f.prey
  | .toxin => f.toxin
  | .corpse => f.corpse

/-- Replace the grid stored under a given scent type. -/
def ScentField.setMap (f : ScentField) (t : ScentType) (g : Grid) : ScentField :=
  match t with
  | .food => { f with food := g }
  | .pred => { f with pred := g }
  | .prey => { f with prey := g }
  | .toxin => { f with toxin := g }
  | .corpse => { f with corpse := g }

/-- ScentField.__init__: rows = height // CELL_SIZE, cols = width // CELL_SIZE,
all grids zero. -/
def mkScentField (width height : ℕ) : ScentField :=
  { rows := height / 25, cols := width / 25,
    food := fun _ _ => 0, pred := fun _ _ => 0, prey := fun _ _ => 0,
    toxin := fun _ _ => 0, corpse := fun _ _ => 0 }

/-- ScentField.emit (scent.py lines 32-41): deposit strength*0.9 at the cell
containing (x, y), clamped to [0,1]; no-op for unknown types or positions
outside the grid. Python's float floor-division is `Int.floor`. -/
def ScentField.emit (f : ScentField) (x y : ℚ) (stype : String) (strength : ℚ) :
    ScentField :=
  match scentTypeOfString stype with
  | none => f
  | some ty =>
    let c : ℤ := ⌊x / cellSize⌋
    let r : ℤ := ⌊y / cellSize⌋
    if 0 ≤ r ∧ r < (f.rows : ℤ) ∧ 0 ≤ c ∧ c < (f.cols : ℤ) then
      f.setMap ty (fun r' c' =>
        if r' = r ∧ c' = c then clamp (f.getMap ty r c + strength * (9/10)) 0 1
        else f.getMap ty r' c')
    else f

/-- The pure diffusion part of ScentField.diffuse: the numpy slice assignment
`new_grid[1:-1, 1:-1] += DIFFUSE_RATE * (up + down + left + right - 4*self)`,
written pointwise (interior cells are rows 1..rows-2, cols 1..cols-2). -/
def diffuseStep (rows cols : ℕ) (g : Grid) : Grid := fun r c =>
  if 1 ≤ r ∧ r ≤ (rows : ℤ) - 2 ∧ 1 ≤ c ∧ c ≤ (cols : ℤ) - 2 then
    g r c + diffuseRate *
      (g (r - 1) c + g (r + 1) c + g r (c - 1) + g r (c + 1) - 4 * g r c)
  else g r c

/-- ScentField.diffuse (scent.py lines 43-56): diffusion step, then the whole
grid is multiplied by (1 - decay) — the corpse map decays at 0.4 × the
standard rate — then clipped to [0,1]. Cells outside the numpy array's
index range do not exist in the source and are left untouched here. -/
def diffuse (rows cols : ℕ) (isCorpse : Bool) (g : Grid) : Grid := fun r c =>
  if 0 ≤ r ∧ r < (rows : ℤ) ∧ 0 ≤ c ∧ c < (cols : ℤ) then
    let decay := decayRate * (if isCorpse then 4/10 else 1)
    min 1 (max 0 (diffuseStep rows cols g r c * (1 - decay)))
  else g r c

/-- ScentField.update (scent.py lines 58-61): every map is diffused once; the
`dt` argument is ignored by the source body. The `grid is maps["corpse"]`
identity test selects the reduced decay exactly for the corpse map. -/
def ScentField.update (f : ScentField) (_dt : ℚ) : ScentField :=
  { f with
    food := diffuse f.rows f.cols false f.food,
    pred := diffuse f.rows f.cols false f.pred,
    prey := diffuse f.rows f.cols false f.prey,
    toxin := diffuse f.rows f.cols false f.toxin,
    corpse := diffuse f.rows f.cols true f.corpse }

/-- ScentField.sample_gradient (scent.py lines 63-76): central differences at
the containing cell; None within one cell of any border, for unknown types,
or when both differences vanish. -/
def ScentField.sampleGradient (f : ScentField) (x y : ℚ) (stype : String) :
    Option (ℚ × ℚ) :=
  match scentTypeOfString stype with
  | none => none
  | some ty =>
    let c : ℤ := ⌊x / cellSize⌋
    let r : ℤ := ⌊y / cellSize⌋
    if 1 ≤ r ∧ r < (f.rows : ℤ) - 1 ∧ 1 ≤ c ∧ c < (f.cols : ℤ) - 1 then
      let g := f.getMap ty
      let dx := g r (c + 1) - g r (c - 1)
      let dy := g (r + 1) c - g (r - 1) c
      if dx = 0 ∧ dy = 0 then none else some (dx, dy)
    else none

/-- Total mass of a grid over its valid cells. -/
def totalMass (rows cols : ℕ) (g : Grid) : ℚ :=
  ∑ r ∈ Finset.range rows, ∑ c ∈ Finset.range cols, g (r : ℤ) (c : ℤ)

/-- The external calls a ScentField receives: emit and update, with arbitrary
arguments. -/
inductive ScentOp where
  | emit (x y : ℚ) (stype : String) (strength : ℚ)
  | update (dt : ℚ)

/-- Apply one external call. -/
def applyScentOp (f : ScentField) : ScentOp → ScentField
  | .emit x y t s => f.emit x y t s
  | .update dt => f.update dt

/-- Run a sequence of external calls. -/
def runScentOps (f : ScentField) (ops : List ScentOp) : ScentField :=
  ops.foldl applyScentOp f

/-! ## Agents (creature.py)

The agent record carries every field the embedded operations read or write.
The velocity pair (vx, vy) and its derived steering (`seek`, `wander`,
`move`) renormalise with a square root and are read by no claim, so they are
omitted; operations below note where the source only steers. -/

/-- The per-tick priority scores dictionary, in insertion order
escape, gather, mate. -/
structure Priorities where
  escape : ℚ
  gather : ℚ
  mate : ℚ
  deriving DecidableEq, Repr

/-- Creature state (creature.py `__init__` plus the lazily created
`mate_attempt_timer` and `heart_pulse_timer`, present here from the start
with value 0). `partner` and `heard_call` are store indices standing for the
Python object references. -/
structure Agent where
  x : ℚ
  y : ℚ
  carrying : Bool
  alive : Bool
  ready_to_mate : Bool
  calling : Bool
  call_timer : ℚ
  mate_drive : ℚ
  responding : Bool
  response_timer : ℚ
  partner : Option ℕ
  call_cooldown : ℚ
  heard_call : Option ℕ
  genome : Genome
  radius : ℚ
  energy : ℚ
  energy_max : ℚ
  generation : ℕ
  mate_attempt_timer : ℚ
  digest_timer : ℚ
  flash_timer : ℚ
  heart_pulse_timer : ℚ
  toxin_cooldown : ℚ
  priorities : Priorities
  deriving DecidableEq, Repr

/-- The live-creature collection; list position is object identity. -/
abbrev Store := List Agent

/-- Update the agent at index `i` in place; a missing index (impossible for
the Python object references this stands for) leaves the store unchanged. -/
def updAt (s : Store) (i : ℕ) (h : Agent → Agent) : Store :=
  match s[i]? with
  | some a => s.set i (h a)
  | none => s

/-- NestManager.is_safe_zone (nest.py lines 117-125): some nest contains both
creatures, its type is "prey" or "predator", and both may enter it. -/
def isSafeZone (nests : List Nest) (a b : Agent) : Bool :=
  nests.any fun n =>
    decide (n.containsPt a.x a.y) && decide (n.containsPt b.x b.y) &&
    (n.type == .prey || n.type == .predator) &&
    canEnter a.genome n && canEnter b.genome n

/-- Modelled from the spec: "`is_safe_zone(agentA, agentB) → bool` (true iff
both occupy the same zone and both are permitted entry)" — the spec-side
predicate for the refinement comparison in claim C5, with no restriction on
the zone's type. -/
def isSafeZoneSpec (nests : List Nest) (a b : Agent) : Prop :=
  ∃ n ∈ nests, n.containsPt a.x a.y ∧ n.containsPt b.x b.y ∧
    canEnter a.genome n = true ∧ canEnter b.genome n = true

/-- Creature.__init__ with an explicit genome: the fields the claims read.
`initEnergyFrac` stands for the `random.uniform(0.6, 1.0)` fraction of
energy_max and `callCooldown0` for `random.uniform(0, CALL_COOLDOWN)`. -/
def mkCreature (cfg : Config) (x y : ℚ) (g : Genome)
    (initEnergyFrac callCooldown0 : ℚ) : Agent :=
  { x := x, y := y,
    carrying := false, alive := true, ready_to_mate := false,
    calling := false, call_timer := 0, mate_drive := 0,
    responding := false, response_timer := 0, partner := none,
    call_cooldown := callCooldown0, heard_call := none,
    genome := g,
    radius := cfg.baseRadius * g.size,
    energy := cfg.energyBaseMax * g.size * initEnergyFrac,
    energy_max := cfg.energyBaseMax * g.size,
    generation := 0, mate_attempt_timer := 0, digest_timer := 0,
    flash_timer := 0, heart_pulse_timer := 0, toxin_cooldown := 0,
    priorities := ⟨0, 0, 0⟩ }

/-! ## Behavior priority engine (creature.py decide_behavior) -/

/-- The three behavior categories. -/
inductive Behavior where
  | escape
  | gather
  | mate
  deriving DecidableEq, Repr

/-- Python's `max(self.priorities, key=...)` over the insertion-ordered dict:
the first key attaining the maximum wins. -/
def argmaxBehavior (p : Priorities) : Behavior :=
  if p.escape ≥ p.gather ∧ p.escape ≥ p.mate then .escape
  else if p.gather ≥ p.mate then .gather
  else .mate

/-- get_gather_priority: 1.5·(1 − energy/energy_max) plus the
`random.uniform(-0.05, 0.05)` draw (the `noise` argument), clamped. -/
def getGatherPriority (a : Agent) (noise : ℚ) : ℚ :=
  clamp (3/2 * (1 - a.energy / a.energy_max) + noise) 0 (3/2)

/-- get_mate_priority: the accumulated drive, 0 when dead. -/
def getMatePriority (a : Agent) : ℚ :=
  if a.alive then a.mate_drive else 0

/-- decide_behavior (creature.py lines 243-275). `escapeP` is the result of
get_escape_priority, taken as an input because its value
clamp(1 − dist/vision, 0, 1) involves a real square-root distance; the
override pipeline below, which is what the claims constrain, is embedded
exactly and holds for every value of it. Returns the selected category and
the store with the priorities snapshot written and, under the starvation
rule, the pairing cleared on both sides. -/
def decideBehavior (cfg : Config) (i : ℕ) (escapeP noise : ℚ) (s : Store) :
    Behavior × Store :=
  match s[i]? with
  | none => (.gather, s)
  | some a =>
    let gather0 := getGatherPriority a noise
    let mate0 := getMatePriority a
    let gm1 : ℚ × ℚ :=
      if a.genome.is_decomposer ∧ a.energy ≥ a.energy_max * (9/10) then (0, 3/2)
      else (gather0, mate0)
    let starving := a.energy < a.energy_max * (35/100)
    let gather2 := if starving then max gm1.1 (16/10) else gm1.1
    let s1 :=
      if starving then
        match a.partner with
        | some p =>
          let s' := s.set i { a with partner := none, heard_call := none }
          updAt s' p (fun q => { q with partner := none, heard_call := none })
        | none => s
      else s
    let escape1 :=
      if a.genome.is_decomposer ∧ escapeP > cfg.toxinThreshold then (18/10 : ℚ)
      else escapeP
    let pr : Priorities := ⟨escape1, gather2, gm1.2⟩
    (argmaxBehavior pr, updAt s1 i (fun q => { q with priorities := pr }))

/-! ## Mating protocol (creature.py) -/

/-- respond_to_call (creature.py lines 334-362): early return unless ready,
alive and unpaired; otherwise set responding state and both partner
references, plus the flash/heart-pulse cues on both sides. The four `seek`
calls only steer velocities and are omitted. -/
def respondToCall (cfg : Config) (i caller : ℕ) (s : Store) : Store :=
  match s[i]? with
  | none => s
  | some a =>
    if ¬a.ready_to_mate ∨ ¬a.alive ∨ a.partner.isSome then s
    else
      let s1 := s.set i
        { a with responding := true, response_timer := cfg.responseCallDuration,
                 partner := some caller, flash_timer := 8/10,
                 heart_pulse_timer := 12/10 }
      updAt s1 caller (fun q =>
        { q with partner := some i, flash_timer := 8/10,
                 heart_pulse_timer := 12/10 })

/-- The call range expression of broadcast_call: predators 450·(vision/100),
others 350·(vision/100). -/
def callRange (g : Genome) (isPred : Bool) : ℚ :=
  if isPred then 450 * (g.vision / 100) else 350 * (g.vision / 100)

/-- One iteration of broadcast_call's listener loop (creature.py
lines 325-332): skip self, the dead and the unready, skip creatures homed to
a different nest, and for those within call range set heard_call and run
respond_to_call. -/
def broadcastVisit (cfg : Config) (i : ℕ) (nests : List Nest) (myNest : Nest)
    (rng : ℚ) (s : Store) (j : ℕ) : Store :=
  if j = i then s
  else match s[i]?, s[j]? with
    | some a, some c =>
      if ¬c.alive ∨ ¬c.ready_to_mate then s
      else if getNest nests c.genome ≠ some myNest then s
      else if distLt a.x a.y c.x c.y rng then
        respondToCall cfg j i (updAt s j (fun q => { q with heard_call := some i }))
      else s
    | _, _ => s

/-- broadcast_call (creature.py lines 298-332): guarded by readiness, life,
being unpaired, and having an enterable home nest; when the cooldown has
expired, set calling state and visit every other creature in list order.
The seek toward home when outside the nest only steers and is omitted. -/
def broadcastCall (cfg : Config) (i : ℕ) (nests : List Nest) (s : Store) : Store :=
  match s[i]? with
  | none => s
  | some a =>
    if ¬a.ready_to_mate ∨ ¬a.alive then s
    else if a.partner.isSome then s
    else match getNest nests a.genome with
      | none => s
      | some myNest =>
        if ¬(canEnter a.genome myNest) then s
        else if a.call_cooldown ≤ 0 then
          let isPred : Bool := decide (a.genome.aggression > 6/10)
          let rng := callRange a.genome isPred
          let s1 := s.set i
            { a with calling := true, call_timer := cfg.callDuration,
                     call_cooldown := if isPred then 5/2 else 7/2 }
          (List.range s.length).foldl (broadcastVisit cfg i nests myNest rng) s1
        else s

/-- The mate-branch bookkeeping of Creature.update (creature.py
lines 149-170): drop a dead partner, accumulate mate_attempt_timer while
paired, and on crossing 8 seconds clear the partner's pairing state, clear
the abandoner's heard_call and timer and halve its mate_drive. The source
does not null the abandoner's own partner reference. -/
def mateTimeoutStep (i : ℕ) (dt : ℚ) (s : Store) : Store :=
  match s[i]? with
  | none => s
  | some a =>
    let deadPartner :=
      match a.partner with
      | some p =>
        match s[p]? with
        | some q => !q.alive
        | none => false
      | none => false
    let s0 := if deadPartner then s.set i { a with partner := none, heard_call := none } else s
    match s0[i]? with
    | none => s0
    | some a0 =>
      match a0.partner with
      | some p =>
        let t := a0.mate_attempt_timer + dt
        if t > 8 then
          let s1 := updAt s0 p (fun q =>
            { q with partner := none, heard_call := none, mate_attempt_timer := 0 })
          updAt s1 i (fun q =>
            { q with heard_call := none, mate_attempt_timer := 0,
                     mate_drive := q.mate_drive * (1/2) })
        else s0.set i { a0 with mate_attempt_timer := t }
      | none => s0.set i { a0 with mate_attempt_timer := 0 }

/-! ## Energy accounting tail of Creature.update (lines 198-240) -/

/-- The energy drain and passive digestion of Creature.update (lines
198-211). `moveIntensity` stands for clamp(hypot(vx, vy), 0, 1) — a
square-root of the unmodeled velocity pair, always in [0, 1]. -/
def drainDigest (cfg : Config) (moveIntensity dt : ℚ) (a : Agent) : Agent :=
  let drain :=
    if a.genome.is_decomposer then
      (cfg.energyIdleCost + cfg.energyMoveCost * moveIntensity) *
        a.genome.metabolism * (1/2)
    else
      (cfg.energyIdleCost + cfg.energyMoveCost * moveIntensity) * a.genome.metabolism
  let a1 := { a with energy := a.energy - drain * dt }
  if a1.digest_timer > 0 then
    let a2a :=
      if a1.genome.aggression > 6/10 then
        { a1 with
          energy := clamp (a1.energy + a1.energy_max * (15/100) * dt) 0 a1.energy_max }
      else a1
    { a2a with digest_timer := a2a.digest_timer - dt }
  else a1

/-- The hibernation and death checks of Creature.update (lines 213-240); the
hibernation velocity damping (a pure velocity write) is omitted, the
predator hibernation's in-place metabolism decay is kept. -/
def deathCheck (a2 : Agent) : Agent :=
  if a2.genome.is_decomposer then
    if a2.energy ≤ a2.energy_max * (15/100) then
      let a3 := { a2 with ready_to_mate := false, flash_timer := 0 }
      if a3.energy ≤ 0 then { a3 with alive := false } else a3
    else a2
  else if a2.genome.aggression > 6/10 then
    if a2.energy ≤ a2.energy_max * (2/10) then
      let g3 := { a2.genome with metabolism := a2.genome.metabolism * (7/10) }
      let a3 := { a2 with ready_to_mate := false, flash_timer := 0, genome := g3 }
      if a3.energy ≤ 0 then { a3 with alive := false } else a3
    else a2
  else
    if a2.energy ≤ 0 then { a2 with alive := false } else a2

/-- The full energy-accounting tail of Creature.update (lines 198-240):
drain and digestion followed by the hibernation/death checks. -/
def energyPhase (cfg : Config) (moveIntensity dt : ℚ) (a : Agent) : Agent :=
  deathCheck (drainDigest cfg moveIntensity dt a)

/-! ## Predator prey search (creature.py find_prey) -/

/-- Embeds `d < t` for a distance whose square is `d2`. -/
def distLt2 (d2 t : ℚ) : Prop := 0 < t ∧ d2 < t ^ 2

instance (d2 t : ℚ) : Decidable (distLt2 d2 t) := by
  unfold distLt2; infer_instance

/-- Embeds `d > t` for a distance whose square is `d2` (d ≥ 0 always). -/
def distGt2 (d2 t : ℚ) : Prop := t < 0 ∨ t ^ 2 < d2

instance (d2 t : ℚ) : Decidable (distGt2 d2 t) := by
  unfold distGt2; infer_instance

/-- One iteration of find_prey's loop (creature.py lines 862-878). The
accumulator carries the best candidate index and the square of best_d
(initially 1e9, squared); comparing squared distances embeds the source's
comparisons of nonnegative hypot values exactly. -/
def findPreyVisit (cfg : Config) (i : ℕ) (s : Store) (nests : List Nest)
    (scent : Option ScentField) (acc : Option ℕ × ℚ) (j : ℕ) : Option ℕ × ℚ :=
  if j = i then acc
  else match s[i]?, s[j]? with
    | some a, some c =>
      if ¬c.alive then acc
      else if isSafeZone nests a c then acc
      else if c.genome.size * cfg.predationSizeFactor < a.genome.size then
        let d2 := dist2 a.x a.y c.x c.y
        let toxinNear :=
          match scent with
          | some f => (f.sampleGradient c.x c.y "toxin").isSome
          | none => false
        if toxinNear then acc
        else if distLt2 d2 a.genome.vision ∧ d2 < acc.2 then (some j, d2)
        else acc
      else acc
    | _, _ => acc

/-- find_prey (creature.py lines 859-879): nearest living, unprotected,
sufficiently small creature, skipping any candidate with a toxin gradient at
its position when a scent field is supplied. -/
def findPrey (cfg : Config) (i : ℕ) (s : Store) (nests : List Nest)
    (scent : Option ScentField) : Option ℕ :=
  ((List.range s.length).foldl (findPreyVisit cfg i s nests scent)
    (none, (10 ^ 9 : ℚ) ^ 2)).1

/-! ## Reproduction (creature.py try_mate) -/

/-- The per-trait Gaussian draws `random.gauss(0, 0.07)` of the crossover
loop, one per numeric trait. -/
structure TraitNoise where
  size : ℚ
  speed : ℚ
  vision : ℚ
  metabolism : ℚ
  aggression : ℚ
  toxin : ℚ
  deriving DecidableEq, Repr

/-- The child-genome loop of try_mate (creature.py lines 456-479): per-trait
parent average plus noise, clamped to the per-trait bounds; the decomposer
flag is the conjunction of the parents' flags. -/
def crossGenome (g1 g2 : Genome) (ns : TraitNoise) : Genome :=
  { size := clamp ((g1.size + g2.size) / 2 + ns.size) (1/2) (16/10),
    speed := clamp ((g1.speed + g2.speed) / 2 + ns.speed) (1/2) (16/10),
    vision := clamp ((g1.vision + g2.vision) / 2 + ns.vision) 40 160,
    metabolism := clamp ((g1.metabolism + g2.metabolism) / 2 + ns.metabolism) (1/2) (3/2),
    aggression := clamp ((g1.aggression + g2.aggression) / 2 + ns.aggression) 0 1,
    toxin := clamp ((g1.toxin + g2.toxin) / 2 + ns.toxin) (4/10) 2,
    is_decomposer := g1.is_decomposer && g2.is_decomposer }

/-- The random draws consumed on try_mate's success path. -/
structure MateRand where
  noise : TraitNoise
  jx : ℚ
  jy : ℚ
  uEnergy : ℚ
  childCooldown : ℚ
  childInitEnergyFrac : ℚ
  deriving DecidableEq, Repr

/-- A successful mating: the returned child and the index of the chosen
partner (the source returns only the child object; the index is recorded so
theorems can speak about the second parent). -/
structure MateSuccess where
  child : Agent
  mateIdx : ℕ
  deriving DecidableEq, Repr

/-- One iteration of try_mate's partner-selection loop (creature.py
lines 422-438): skip self, the dead, the unready and the already-paired;
predators require the candidate's home nest to be the caller's and range
vision·1.2, prey require a shared safe zone and range vision·0.8. The
accumulator holds the squared best distance, initially 9999 squared. -/
def mateSelectVisit (_cfg : Config) (i : ℕ) (s : Store) (nests : List Nest)
    (myNest : Nest) (isPred : Bool) (acc : Option ℕ × ℚ) (j : ℕ) : Option ℕ × ℚ :=
  if j = i then acc
  else match s[i]?, s[j]? with
    | some a, some c =>
      if ¬c.alive ∨ ¬c.ready_to_mate ∨ c.partner.isSome then acc
      else if isPred then
        if getNest nests c.genome ≠ some myNest then acc
        else
          let d2 := dist2 a.x a.y c.x c.y
          if d2 < acc.2 ∧ distLt2 d2 (a.genome.vision * (12/10)) then (some j, d2)
          else acc
      else
        if isSafeZone nests a c then
          let d2 := dist2 a.x a.y c.x c.y
          if d2 < acc.2 ∧ distLt2 d2 (a.genome.vision * (8/10)) then (some j, d2)
          else acc
        else acc
    | _, _ => acc

/-- The species-dependent mating cost of try_mate line 450:
MATING_COST · 0.6 for predators, · 0.8 otherwise. -/
def mateCost (cfg : Config) (isPred : Bool) : ℚ :=
  if isPred then cfg.matingCost * (6/10) else cfg.matingCost * (8/10)

/-- The child built by try_mate's success block (creature.py lines 456-495):
crossover genome with the line-485 overwrite of is_decomposer by the
caller's flag, jittered-midpoint position, energy a fraction of its own
energy_max, generation max(parents) + 1. The child's decide_behavior/move
calls touch only its priorities, velocity and position and are read by no
claim. -/
def mateChild (cfg : Config) (rnd : MateRand) (a c : Agent) : Agent :=
  let cg := { crossGenome a.genome c.genome rnd.noise with
    is_decomposer := a.genome.is_decomposer }
  let child0 := mkCreature cfg ((a.x + c.x) / 2 + rnd.jx) ((a.y + c.y) / 2 + rnd.jy)
    cg rnd.childInitEnergyFrac rnd.childCooldown
  { child0 with
    energy := child0.energy_max * rnd.uEnergy, flash_timer := 6/10,
    generation := max a.generation c.generation + 1 }

/-- The per-parent effects of try_mate's success block (lines 450-454 and
497-510): energy scaled by (1 − cost), readiness cleared, all pairing and
call state reset, cooldown re-armed at 2.0, mate_drive zeroed. -/
def clearedParent (cost : ℚ) (q : Agent) : Agent :=
  { q with
    energy := q.energy * (1 - cost), ready_to_mate := false,
    partner := none, heard_call := none, responding := false,
    mate_drive := 0, call_cooldown := 2 }

/-- The success block of try_mate (creature.py lines 440-515), entered with a
chosen partner index `p` and squared courtship distance `bestD2` (0 for the
decomposer path, matching `best_d = 0` at line 375). Failure by distance
only steers and moves (not modeled); success applies `clearedParent` to both
sides and returns the `mateChild`. -/
def mateSucceed (cfg : Config) (i p : ℕ) (rnd : MateRand) (bestD2 : ℚ)
    (s : Store) : Option MateSuccess × Store :=
  match s[i]?, s[p]? with
  | some a, some c =>
    let isPred : Bool := decide (a.genome.aggression > 6/10)
    let maxDist := if isPred then a.radius * 4 else a.radius * 3
    if distGt2 bestD2 maxDist then (none, s)
    else
      let cost := mateCost cfg isPred
      (some ⟨mateChild cfg rnd a c, p⟩,
        updAt (s.set i (clearedParent cost a)) p (clearedParent cost))
  | _, _ => (none, s)

/-- try_mate (creature.py lines 365-523). Guards: readiness, life, a home
nest, predators home first, caller inside the nest; decomposers require
their existing partner to be alive, ready and inside the same nest, others
run the selection loop. The trailing decomposer "stuck" reset (lines
517-523) is unreachable: every decomposer path either returns early or
carries a partner into the success block. Failure branches that only
seek/move leave the store unchanged (velocities are not modeled). -/
def tryMate (cfg : Config) (i : ℕ) (nests : List Nest) (rnd : MateRand)
    (s : Store) : Option MateSuccess × Store :=
  match s[i]? with
  | none => (none, s)
  | some a =>
    if ¬a.ready_to_mate ∨ ¬a.alive then (none, s)
    else match getNest nests a.genome with
    | none => (none, s)
    | some myNest =>
      if a.genome.aggression > 6/10 ∧
          ¬(canEnter a.genome myNest ∧ myNest.containsPt a.x a.y) then (none, s)
      else if ¬myNest.containsPt a.x a.y then (none, s)
      else if a.genome.is_decomposer then
        match a.partner with
        | none => (none, s)
        | some p =>
          match s[p]? with
          | none => (none, s)
          | some q =>
            if ¬q.alive then (none, s)
            else if getNest nests q.genome = some myNest ∧ myNest.containsPt q.x q.y then
              if q.alive ∧ q.ready_to_mate then mateSucceed cfg i p rnd 0 s
              else (none, s)
            else (none, s)
      else
        let isPred : Bool := decide (a.genome.aggression > 6/10)
        let sel := (List.range s.length).foldl
          (mateSelectVisit cfg i s nests myNest isPred) (none, (9999 : ℚ) ^ 2)
        match sel.1 with
        | some p => mateSucceed cfg i p rnd sel.2 s
        | none => (none, s)

/-- The partner-validity check of the mate branch (creature.py
lines 176-184): a paired agent whose home nest is missing or not enterable
drops its partner reference; a paired agent with a valid home nest only
seeks toward it, which steers velocities and is omitted. -/
def mateHomeCheck (i : ℕ) (nests : List Nest) (s : Store) : Store :=
  match s[i]? with
  | none => s
  | some a =>
    match a.partner with
    | none => s
    | some _ =>
      match getNest nests a.genome with
      | none => s.set i { a with partner := none }
      | some myNest =>
        if canEnter a.genome myNest then s
        else s.set i { a with partner := none }

/-- One tick of the mating path: the mate branch of Creature.update
(creature.py lines 149-194), in source order — the dead-partner and timeout
bookkeeping, then broadcast_call when the agent is not already calling and
its call cooldown has expired, then the partner-validity check, then
try_mate; a returned child is appended to the creature list and the caller's
mate_attempt_timer reset. The seek and neutral_behavior calls only steer and
wander and are omitted, as velocities are throughout. -/
def mateTick (cfg : Config) (i : ℕ) (nests : List Nest) (rnd : MateRand)
    (dt : ℚ) (s : Store) : Option MateSuccess × Store :=
  let s1 := mateTimeoutStep i dt s
  let s2 :=
    match s1[i]? with
    | some a =>
      if a.calling = false ∧ a.call_cooldown ≤ 0 then broadcastCall cfg i nests s1
      else s1
    | none => s1
  let s3 := mateHomeCheck i nests s2
  match tryMate cfg i nests rnd s3 with
  | (some ms, s4) =>
    (some ms, updAt s4 i (fun q => { q with mate_attempt_timer := 0 }) ++ [ms.child])
  | (none, s4) => (none, s4)

/-! ## Helpers for stating and proving the claims -/

/-- The partner reference of the agent at index `i`. -/
def partnerOf (s : Store) (i : ℕ) : Option ℕ :=
  match s[i]? with
  | some a => a.partner
  | none => none

/-- The heard_call reference of the agent at index `i`. -/
def heardOf (s : Store) (i : ℕ) : Option ℕ :=
  match s[i]? with
  | some a => a.heard_call
  | none => none

/-- The energy of the agent at index `i`. -/
def energyOf (s : Store) (i : ℕ) : Option ℚ :=
  match s[i]? with
  | some a => some a.energy
  | none => none

/-- The ready_to_mate flag of the agent at index `i`. -/
def readyOf (s : Store) (i : ℕ) : Option Bool :=
  match s[i]? with
  | some a => some a.ready_to_mate
  | none => none

instance (nests : List Nest) (a b : Agent) : Decidable (isSafeZoneSpec nests a b) := by
  unfold isSafeZoneSpec; infer_instance

lemma le_clamp (x lo hi : ℚ) : lo ≤ clamp x lo hi := le_max_left _ _

lemma clamp_le (x lo hi : ℚ) (h : lo ≤ hi) : clamp x lo hi ≤ hi :=
  max_le h (min_le_left _ _)

lemma updAt_getElem_self (s : Store) (i : ℕ) (h : Agent → Agent) :
    (updAt s i h)[i]? = (s[i]?).map h := by
  unfold updAt
  cases hs : s[i]? with
  | none => simpa using hs
  | some a =>
    have hlen : i < s.length := by
      by_contra hc
      rw [List.getElem?_eq_none (Nat.le_of_not_lt hc)] at hs
      exact Option.noConfusion hs
    simp [List.getElem?_set_eq_of_lt _ hlen]

lemma updAt_getElem_ne (s : Store) (i j : ℕ) (h : Agent → Agent) (hij : i ≠ j) :
    (updAt s i h)[j]? = s[j]? := by
  unfold updAt
  cases hs : s[i]? with
  | none => rfl
  | some a => exact List.getElem?_set_ne hij

lemma updAt_length (s : Store) (i : ℕ) (h : Agent → Agent) :
    (updAt s i h).length = s.length := by
  unfold updAt
  cases s[i]? with
  | none => rfl
  | some a => simp

/-! ## Concrete instances used by counterexamples and witnesses -/

/-- A concrete configuration valuation for the closed evaluations below;
no counterexample depends on the configured values beyond the properties
stated where it is used. -/
def cfgEx : Config :=
  { width := 1000, height := 750, matingCost := 15/100, callDuration := 1,
    responseCallDuration := 1, toxinThreshold := 6/10, predationSizeFactor := 13/10,
    energyIdleCost := 1, energyMoveCost := 1, energyBaseMax := 100, baseRadius := 6 }

/-- The NestManager layout at the concrete configuration: prey nest center
(200, 375), predator nest center (800, 375), decomposer nest center
(500, 150), all of radius 90. -/
def nestsEx : List Nest := nestManagerNests cfgEx

/-- A forager genome (aggression ≤ 0.6, not a decomposer). -/
def preyGenomeEx : Genome := ⟨1, 1, 100, 1, 3/10, 0, false⟩

/-- A predator genome (aggression > 0.6, larger size). -/
def predGenomeEx : Genome := ⟨16/10, 1, 100, 1, 9/10, 0, false⟩

/-- A decomposer genome. -/
def decGenomeEx : Genome := ⟨1, 1, 100, 1, 0, 1/2, true⟩

/-- An agent at a given position that is ready to mate. -/
def readyAgent (x y : ℚ) (g : Genome) : Agent :=
  { mkCreature cfgEx x y g (8/10) 0 with ready_to_mate := true }

/-! ## Claim C5: is_safe_zone versus the spec's description -/

/-- A decomposer standing at the decomposer nest's center. -/
def decAgentEx : Agent := readyAgent 500 150 decGenomeEx

/-- C5 counterexample: two decomposers both inside the decomposer nest, both
permitted to enter it (can_enter holds for decomposers there), satisfy the
spec-side description of is_safe_zone, yet NestManager.is_safe_zone returns
false because it additionally requires the zone's type to be "prey" or
"predator". -/
theorem c5_counterexample :
    isSafeZone nestsEx decAgentEx decAgentEx = false ∧
    isSafeZoneSpec nestsEx decAgentEx decAgentEx := by
  constructor
  · norm_num [isSafeZone, nestsEx, nestManagerNests, cfgEx, decAgentEx, readyAgent,
      mkCreature, decGenomeEx, Nest.containsPt, distLe, dist2]
    rintro (h | h) <;> exact NestType.noConfusion h
  · refine ⟨⟨1000 * (5/10), 750 * (2/10), 90, .decomposer⟩, ?_, ?_, ?_, ?_, ?_⟩
    · simp [nestsEx, nestManagerNests, cfgEx]
    · norm_num [Nest.containsPt, distLe, dist2, decAgentEx, readyAgent, mkCreature]
    · norm_num [Nest.containsPt, distLe, dist2, decAgentEx, readyAgent, mkCreature]
    · simp [canEnter, decAgentEx, readyAgent, mkCreature, decGenomeEx]
    · simp [canEnter, decAgentEx, readyAgent, mkCreature, decGenomeEx]

/-- C5 (amended): is_safe_zone(A, B) is true iff some zone of prey or
predator type contains both A and B and both are permitted to enter it; a
shared decomposer-type zone never qualifies. -/
theorem c5_isSafeZone_iff (nests : List Nest) (a b : Agent) :
    isSafeZone nests a b = true ↔
      ∃ n ∈ nests, n.containsPt a.x a.y ∧ n.containsPt b.x b.y ∧
        (n.type = .prey ∨ n.type = .predator) ∧
        canEnter a.genome n = true ∧ canEnter b.genome n = true := by
  unfold isSafeZone
  rw [List.any_eq_true]
  constructor
  · rintro ⟨n, hn, hcond⟩
    simp only [Bool.and_eq_true, decide_eq_true_eq, Bool.or_eq_true, beq_iff_eq] at hcond
    exact ⟨n, hn, hcond.1.1.1.1, hcond.1.1.1.2, hcond.1.1.2, hcond.1.2, hcond.2⟩
  · rintro ⟨n, hn, h1, h2, h3, h4, h5⟩
    refine ⟨n, hn, ?_⟩
    simp only [Bool.and_eq_true, decide_eq_true_eq, Bool.or_eq_true, beq_iff_eq]
    exact ⟨⟨⟨⟨h1, h2⟩, h3⟩, h4⟩, h5⟩

/-! ## Claim C7: scent grid cells stay within [0,1] -/

/-- Every valid cell of every scent map lies in [0,1]. -/
def gridsInBounds (f : ScentField) : Prop :=
  ∀ t : ScentType, ∀ r c : ℤ, 0 ≤ r → r < (f.rows : ℤ) → 0 ≤ c → c < (f.cols : ℤ) →
    0 ≤ f.getMap t r c ∧ f.getMap t r c ≤ 1

lemma getMap_setMap (f : ScentField) (t t' : ScentType) (g : Grid) :
    (f.setMap t g).getMap t' = if t' = t then g else f.getMap t' := by
  cases t <;> cases t' <;> simp [ScentField.setMap, ScentField.getMap]

lemma setMap_rows (f : ScentField) (t : ScentType) (g : Grid) :
    (f.setMap t g).rows = f.rows := by
  cases t <;> rfl

lemma setMap_cols (f : ScentField) (t : ScentType) (g : Grid) :
    (f.setMap t g).cols = f.cols := by
  cases t <;> rfl

lemma emit_rows (f : ScentField) (x y : ℚ) (ty : String) (st : ℚ) :
    (f.emit x y ty st).rows = f.rows := by
  unfold ScentField.emit
  cases scentTypeOfString ty with
  | none => rfl
  | some t => dsimp only; split <;> simp [setMap_rows]

lemma emit_cols (f : ScentField) (x y : ℚ) (ty : String) (st : ℚ) :
    (f.emit x y ty st).cols = f.cols := by
  unfold ScentField.emit
  cases scentTypeOfString ty with
  | none => rfl
  | some t => dsimp only; split <;> simp [setMap_cols]

lemma gridsInBounds_emit (f : ScentField) (x y : ℚ) (ty : String) (st : ℚ)
    (hf : gridsInBounds f) : gridsInBounds (f.emit x y ty st) := by
  intro t r c hr0 hr hc0 hc
  rw [emit_rows] at hr
  rw [emit_cols] at hc
  unfold ScentField.emit
  cases scentTypeOfString ty with
  | none => exact hf t r c hr0 hr hc0 hc
  | some t' =>
    dsimp only
    split
    · rw [getMap_setMap]
      split
      · dsimp only
        split
        · exact ⟨le_clamp _ _ _, clamp_le _ _ _ (by norm_num)⟩
        · exact hf _ r c hr0 hr hc0 hc
      · exact hf t r c hr0 hr hc0 hc
    · exact hf t r c hr0 hr hc0 hc

lemma diffuse_mem_unitInterval (rows cols : ℕ) (b : Bool) (g : Grid) (r c : ℤ)
    (hr0 : 0 ≤ r) (hr : r < (rows : ℤ)) (hc0 : 0 ≤ c) (hc : c < (cols : ℤ)) :
    0 ≤ diffuse rows cols b g r c ∧ diffuse rows cols b g r c ≤ 1 := by
  unfold diffuse
  rw [if_pos ⟨hr0, hr, hc0, hc⟩]
  constructor
  · exact le_min (by norm_num) (le_max_left _ _)
  · exact min_le_left _ _

lemma gridsInBounds_update (f : ScentField) (dt : ℚ) :
    gridsInBounds (f.update dt) := by
  intro t r c hr0 hr hc0 hc
  cases t <;>
    exact diffuse_mem_unitInterval _ _ _ _ r c hr0 hr hc0 hc

lemma gridsInBounds_applyScentOp (f : ScentField) (op : ScentOp)
    (hf : gridsInBounds f) : gridsInBounds (applyScentOp f op) := by
  cases op with
  | emit x y t s => exact gridsInBounds_emit f x y t s hf
  | update dt => exact gridsInBounds_update f dt

lemma gridsInBounds_runScentOps (f : ScentField) (ops : List ScentOp)
    (hf : gridsInBounds f) : gridsInBounds (runScentOps f ops) := by
  induction ops generalizing f with
  | nil => exact hf
  | cons op rest ih => exact ih _ (gridsInBounds_applyScentOp f op hf)

lemma gridsInBounds_mkScentField (width height : ℕ) :
    gridsInBounds (mkScentField width height) := by
  intro t r c _ _ _ _
  cases t <;> exact ⟨le_refl 0, by show (0:ℚ) ≤ 1; norm_num⟩

/-- C7: starting from a fresh field, after any sequence of emit and update
calls — emit with arbitrary strength, unknown types and out-of-grid
positions included — every valid cell of every scent map lies in [0,1]. -/
theorem c7_scent_cells_bounded (width height : ℕ) (ops : List ScentOp)
    (t : ScentType) (r c : ℤ)
    (hr0 : 0 ≤ r) (hr : r < ((runScentOps (mkScentField width height) ops).rows : ℤ))
    (hc0 : 0 ≤ c) (hc : c < ((runScentOps (mkScentField width height) ops).cols : ℤ)) :
    0 ≤ (runScentOps (mkScentField width height) ops).getMap t r c ∧
      (runScentOps (mkScentField width height) ops).getMap t r c ≤ 1 :=
  gridsInBounds_runScentOps (mkScentField width height) ops
    (gridsInBounds_mkScentField width height) t r c hr0 hr hc0 hc

/-- C7 witness: a concrete run — an over-strength emit into "food" followed
by an update — keeps cell (1, 1) of the food map inside [0, 1]. -/
theorem c7_scent_cells_bounded_witness :
    0 ≤ (runScentOps (mkScentField 175 175)
        [.emit 30 30 "food" 5, .update 1]).getMap .food 1 1 ∧
      (runScentOps (mkScentField 175 175)
        [.emit 30 30 "food" 5, .update 1]).getMap .food 1 1 ≤ 1 := by
  refine c7_scent_cells_bounded 175 175 [.emit 30 30 "food" 5, .update 1]
    .food 1 1 (by norm_num) ?_ (by norm_num) ?_ <;>
    simp [runScentOps, applyScentOp, ScentField.update, emit_rows, emit_cols,
      mkScentField]

/-! ## Claim C10: find_prey never returns toxin-tainted prey -/

lemma findPreyVisit_inv (cfg : Config) (i : ℕ) (s : Store) (nests : List Nest)
    (f : ScentField) (acc : Option ℕ × ℚ) (j : ℕ)
    (hacc : ∀ k, acc.1 = some k →
      ∃ c, s[k]? = some c ∧ f.sampleGradient c.x c.y "toxin" = none) :
    ∀ k, (findPreyVisit cfg i s nests (some f) acc j).1 = some k →
      ∃ c, s[k]? = some c ∧ f.sampleGradient c.x c.y "toxin" = none := by
  intro k hk
  unfold findPreyVisit at hk
  split at hk
  · exact hacc k hk
  · split at hk
    case _ a c hsi hsj =>
      split at hk
      · exact hacc k hk
      · split at hk
        · exact hacc k hk
        · split at hk
          · dsimp only at hk
            split at hk
            · exact hacc k hk
            · split at hk
              · rename_i htox _
                simp only [Prod.fst] at hk
                obtain rfl : j = k := by injection hk
                exact ⟨c, hsj, Option.not_isSome_iff_eq_none.mp (by simpa using htox)⟩
              · exact hacc k hk
          · exact hacc k hk
    case _ => exact hacc k hk

lemma findPrey_fold_inv (cfg : Config) (i : ℕ) (s : Store) (nests : List Nest)
    (f : ScentField) (l : List ℕ) (acc : Option ℕ × ℚ)
    (hacc : ∀ k, acc.1 = some k →
      ∃ c, s[k]? = some c ∧ f.sampleGradient c.x c.y "toxin" = none) :
    ∀ k, (l.foldl (findPreyVisit cfg i s nests (some f)) acc).1 = some k →
      ∃ c, s[k]? = some c ∧ f.sampleGradient c.x c.y "toxin" = none := by
  induction l generalizing acc with
  | nil => exact hacc
  | cons j rest ih =>
    exact ih _ (findPreyVisit_inv cfg i s nests f acc j hacc)

/-- C10: when find_prey is called with a scent field, any creature it
returns has no toxin gradient at its position — every otherwise-eligible
candidate whose position carries a toxin gradient is skipped, nearest or
not. -/
theorem c10_findPrey_avoids_toxin (cfg : Config) (i : ℕ) (s : Store)
    (nests : List Nest) (f : ScentField) (j : ℕ)
    (hj : findPrey cfg i s nests (some f) = some j) :
    ∃ c, s[j]? = some c ∧ f.sampleGradient c.x c.y "toxin" = none := by
  unfold findPrey at hj
  exact findPrey_fold_inv cfg i s nests f (List.range s.length) _
    (fun k hk => Option.noConfusion hk) j hj

/-- A 7×7 all-zero scent field. -/
def zeroFieldEx : ScentField := mkScentField 175 175

/-- A predator at (500, 500) and a smaller forager 10 units away, both away
from every nest. -/
def huntStoreEx : Store :=
  [readyAgent 500 500 predGenomeEx, readyAgent 510 500 preyGenomeEx]

/-- C10 witness: on the concrete hunt scenario find_prey returns the forager
and the toxin gradient at its position is null. -/
theorem c10_findPrey_avoids_toxin_witness :
    findPrey cfgEx 0 huntStoreEx nestsEx (some zeroFieldEx) = some 1 ∧
    ∃ c, huntStoreEx[1]? = some c ∧
      zeroFieldEx.sampleGradient c.x c.y "toxin" = none := by
  have h : findPrey cfgEx 0 huntStoreEx nestsEx (some zeroFieldEx) = some 1 := by
    rw [findPrey, show huntStoreEx.length = 2 from rfl,
      show List.range 2 = [0, 1] from rfl]
    norm_num [findPreyVisit, huntStoreEx, readyAgent, mkCreature, predGenomeEx,
      preyGenomeEx, cfgEx, nestsEx, nestManagerNests, isSafeZone, canEnter,
      Nest.containsPt, distLe, distLt2, dist2, ScentField.sampleGradient,
      zeroFieldEx, mkScentField, cellSize,
      show scentTypeOfString "toxin" = some ScentType.toxin from rfl]
  exact ⟨h, c10_findPrey_avoids_toxin cfgEx 0 huntStoreEx nestsEx zeroFieldEx 1 h⟩

/-! ## Claim C6: energy bounds at the tick boundary -/

/-- A forager one drain short of death: energy 1/2, about to lose 2. -/
def lowEnergyAgentEx : Agent := { readyAgent 200 375 preyGenomeEx with energy := 1/2 }

/-- C6 counterexample: the drain `self.energy -= drain * dt` has no lower
clamp, so an agent's energy is negative at the tick boundary in the tick it
starves (the agent is only marked dead). Here: energy 1/2, drain 2, final
energy −3/2 < 0 and alive = false. -/
theorem c6_counterexample :
    (energyPhase cfgEx 1 1 lowEnergyAgentEx).energy < 0 ∧
    (energyPhase cfgEx 1 1 lowEnergyAgentEx).alive = false := by
  norm_num [energyPhase, drainDigest, deathCheck, clamp, lowEnergyAgentEx,
    readyAgent, mkCreature, preyGenomeEx, cfgEx]

/-- C6 (amended): with nonnegative configured costs, intensity, metabolism
and time step, a positive energy capacity and energy at most energy_max
going in (every behavior-phase gain site clamps to [0, energy_max]), the
energy-accounting tail keeps energy ≤ energy_max, and any agent still alive
after it has strictly positive energy; an agent driven to or below zero is
marked dead but retains its (possibly negative) energy value. -/
lemma deathCheck_energy (b : Agent) : (deathCheck b).energy = b.energy := by
  unfold deathCheck
  dsimp only
  split_ifs <;> rfl

lemma deathCheck_alive_pos (b : Agent) (hemax : 0 < b.energy_max)
    (hb : (deathCheck b).alive = true) : 0 < b.energy := by
  by_cases hz : b.energy ≤ 0
  · exfalso
    have h15 : b.energy ≤ b.energy_max * (15/100) := by nlinarith
    have h20 : b.energy ≤ b.energy_max * (2/10) := by nlinarith
    unfold deathCheck at hb
    dsimp only at hb
    split_ifs at hb
  · exact not_le.mp hz

lemma drainDigest_emax (cfg : Config) (m dt : ℚ) (a : Agent) :
    (drainDigest cfg m dt a).energy_max = a.energy_max := by
  unfold drainDigest
  dsimp only
  split_ifs <;> rfl

lemma drainDigest_energy_le (cfg : Config) (m dt : ℚ) (a : Agent)
    (hidle : 0 ≤ cfg.energyIdleCost) (hmove : 0 ≤ cfg.energyMoveCost)
    (hm : 0 ≤ m) (hdt : 0 ≤ dt) (hmet : 0 ≤ a.genome.metabolism)
    (hemax0 : 0 ≤ a.energy_max) (hle : a.energy ≤ a.energy_max) :
    (drainDigest cfg m dt a).energy ≤ a.energy_max := by
  have hbase : 0 ≤ (cfg.energyIdleCost + cfg.energyMoveCost * m) * a.genome.metabolism :=
    mul_nonneg (add_nonneg hidle (mul_nonneg hmove hm)) hmet
  have hd1 : 0 ≤ (cfg.energyIdleCost + cfg.energyMoveCost * m) * a.genome.metabolism * dt :=
    mul_nonneg hbase hdt
  have hd2 : 0 ≤ (cfg.energyIdleCost + cfg.energyMoveCost * m) * a.genome.metabolism *
      (1/2) * dt :=
    mul_nonneg (mul_nonneg hbase (by norm_num)) hdt
  unfold drainDigest
  dsimp only
  split_ifs <;>
    first
      | exact clamp_le _ _ _ hemax0
      | (dsimp only; linarith)

/-- C6 (amended): with nonnegative configured costs, movement intensity,
metabolism and time step, positive energy capacity and energy ≤ energy_max
going in (every behavior-phase gain site clamps into [0, energy_max]), the
energy-accounting tail keeps energy ≤ energy_max, and an agent still alive
after it has strictly positive energy; an agent driven to or below zero is
marked dead but keeps its (possibly negative) energy value at the tick
boundary. -/
theorem c6_energy_bounds (cfg : Config) (m dt : ℚ) (a : Agent)
    (hidle : 0 ≤ cfg.energyIdleCost) (hmove : 0 ≤ cfg.energyMoveCost)
    (hm : 0 ≤ m) (hdt : 0 ≤ dt) (hmet : 0 ≤ a.genome.metabolism)
    (hemax : 0 < a.energy_max) (hle : a.energy ≤ a.energy_max) :
    ((energyPhase cfg m dt a).alive = true → 0 < (energyPhase cfg m dt a).energy) ∧
      (energyPhase cfg m dt a).energy ≤ a.energy_max := by
  constructor
  · intro h
    rw [energyPhase, deathCheck_energy]
    exact deathCheck_alive_pos _ (by rw [drainDigest_emax]; exact hemax) h
  · rw [energyPhase, deathCheck_energy]
    exact drainDigest_energy_le cfg m dt a hidle hmove hm hdt hmet (le_of_lt hemax) hle

/-- C6 witness: applying the amended bound to a healthy forager at the
concrete configuration. -/
theorem c6_energy_bounds_witness :
    ((energyPhase cfgEx 1 1 (readyAgent 200 375 preyGenomeEx)).alive = true →
      0 < (energyPhase cfgEx 1 1 (readyAgent 200 375 preyGenomeEx)).energy) ∧
    (energyPhase cfgEx 1 1 (readyAgent 200 375 preyGenomeEx)).energy ≤
      (readyAgent 200 375 preyGenomeEx).energy_max :=
  c6_energy_bounds cfgEx 1 1 (readyAgent 200 375 preyGenomeEx)
    (by norm_num [cfgEx]) (by norm_num [cfgEx]) (by norm_num) (by norm_num)
    (by norm_num [readyAgent, mkCreature, preyGenomeEx])
    (by norm_num [readyAgent, mkCreature, preyGenomeEx, cfgEx])
    (by norm_num [readyAgent, mkCreature, preyGenomeEx, cfgEx])

/-! ## Claim C9: the starvation override -/

lemma getElem?_some_lt {s : Store} {i : ℕ} {a : Agent} (h : s[i]? = some a) :
    i < s.length := by
  by_contra hc
  rw [List.getElem?_eq_none (Nat.le_of_not_lt hc)] at h
  exact Option.noConfusion h

lemma getGatherPriority_le (a : Agent) (noise : ℚ) :
    getGatherPriority a noise ≤ 3/2 :=
  clamp_le _ _ _ (by norm_num)

/-- C9: whenever energy < 35% of energy_max, decide_behavior leaves the
gather score equal to max(base gather score, 1.6) — which is 1.6 outright,
the base being clamped to at most 1.5 — and, when the agent is paired at
that moment, clears partner and heard_call on the agent's side and on the
partner's side. -/
theorem c9_starvation_override (cfg : Config) (i : ℕ) (escapeP noise : ℚ)
    (s : Store) (a : Agent) (hsi : s[i]? = some a)
    (hstarve : a.energy < a.energy_max * (35/100)) :
    (∃ a', ((decideBehavior cfg i escapeP noise s).2)[i]? = some a' ∧
      a'.priorities.gather = max (getGatherPriority a noise) (16/10) ∧
      (a.partner.isSome = true → a'.partner = none ∧ a'.heard_call = none)) ∧
    (∀ p, a.partner = some p → p ≠ i →
      partnerOf ((decideBehavior cfg i escapeP noise s).2) p = none ∧
      heardOf ((decideBehavior cfg i escapeP noise s).2) p = none) := by
  have hlen : i < s.length := getElem?_some_lt hsi
  have hbase : max (getGatherPriority a noise) (16/10) = (16/10 : ℚ) :=
    max_eq_right (by linarith [getGatherPriority_le a noise])
  unfold decideBehavior
  rw [hsi]
  dsimp only
  rw [if_pos hstarve, if_pos hstarve]
  cases hp : a.partner with
  | none =>
    dsimp only
    constructor
    · rw [updAt_getElem_self, hsi]
      refine ⟨_, rfl, ?_, ?_⟩
      · dsimp only
        rw [hbase]
        split
        · exact max_eq_right (by norm_num)
        · exact max_eq_right (by linarith [getGatherPriority_le a noise])
      · intro hcon
        simp at hcon
    · intro p hp' _
      exact Option.noConfusion hp'
  | some p =>
    dsimp only
    constructor
    · by_cases hpi : p = i
      · subst hpi
        rw [updAt_getElem_self, updAt_getElem_self,
          List.getElem?_set_eq_of_lt _ hlen]
        refine ⟨_, rfl, ?_, ?_⟩
        · dsimp only
          rw [hbase]
          split
          · exact max_eq_right (by norm_num)
          · exact max_eq_right (by linarith [getGatherPriority_le a noise])
        · exact fun _ => ⟨rfl, rfl⟩
      · rw [updAt_getElem_self, updAt_getElem_ne _ p i _ hpi,
          List.getElem?_set_eq_of_lt _ hlen]
        refine ⟨_, rfl, ?_, ?_⟩
        · dsimp only
          rw [hbase]
          split
          · exact max_eq_right (by norm_num)
          · exact max_eq_right (by linarith [getGatherPriority_le a noise])
        · exact fun _ => ⟨rfl, rfl⟩
    · intro p' hp' hpi
      have hpp : p = p' := Option.some_inj.mp hp'
      subst hpp
      unfold partnerOf heardOf
      rw [updAt_getElem_ne _ i p _ (fun h => hpi h.symm), updAt_getElem_self,
        List.getElem?_set_ne (fun h => hpi h.symm)]
      cases s[p]? <;> simp

/-- A starving forager (energy 10 of 100) paired with index 1. -/
def starvingAgentEx : Agent :=
  { readyAgent 200 375 preyGenomeEx with
      energy := 10, partner := some 1, heard_call := some 1 }

/-- Its partner at index 1, paired back to index 0. -/
def starvingPartnerEx : Agent :=
  { readyAgent 200 375 preyGenomeEx with partner := some 0, heard_call := some 0 }

/-- C9 witness: the starvation override applied to the concrete starving
pair. -/
theorem c9_starvation_override_witness :
    (∃ a', ((decideBehavior cfgEx 0 0 0
        [starvingAgentEx, starvingPartnerEx]).2)[0]? = some a' ∧
      a'.priorities.gather = max (getGatherPriority starvingAgentEx 0) (16/10) ∧
      (starvingAgentEx.partner.isSome = true →
        a'.partner = none ∧ a'.heard_call = none)) ∧
    (∀ p, starvingAgentEx.partner = some p → p ≠ 0 →
      partnerOf ((decideBehavior cfgEx 0 0 0
        [starvingAgentEx, starvingPartnerEx]).2) p = none ∧
      heardOf ((decideBehavior cfgEx 0 0 0
        [starvingAgentEx, starvingPartnerEx]).2) p = none) :=
  c9_starvation_override cfgEx 0 0 0 [starvingAgentEx, starvingPartnerEx]
    starvingAgentEx rfl
    (by norm_num [starvingAgentEx, readyAgent, mkCreature, preyGenomeEx, cfgEx])

/-! ## Claim C3: timeout abandonment -/

/-- A paired forager whose mate_attempt_timer (7.5 s) is about to cross the
8-second abandonment limit, with full mate_drive. -/
def timedOutAgentEx : Agent :=
  { readyAgent 200 375 preyGenomeEx with
      partner := some 1, heard_call := some 1,
      mate_attempt_timer := 75/10, mate_drive := 1 }

/-- Its partner, paired back to index 0. -/
def timedOutPartnerEx : Agent :=
  { readyAgent 200 375 preyGenomeEx with partner := some 0, heard_call := some 0 }

/-- C3: evaluating the timeout branch at the failing input. After the
abandonment fires (timer 7.5 + dt 1 > 8), the partner's pairing state is
cleared, both heard_call references are cleared, and the abandoner's
mate_drive is halved — but the abandoner's own partner reference still
points at the partner, where the claim requires both references null. -/
theorem c3_timeout_keeps_abandoner_partner :
    partnerOf (mateTimeoutStep 0 1 [timedOutAgentEx, timedOutPartnerEx]) 1 = none ∧
    heardOf (mateTimeoutStep 0 1 [timedOutAgentEx, timedOutPartnerEx]) 1 = none ∧
    heardOf (mateTimeoutStep 0 1 [timedOutAgentEx, timedOutPartnerEx]) 0 = none ∧
    (∃ a', (mateTimeoutStep 0 1 [timedOutAgentEx, timedOutPartnerEx])[0]? = some a' ∧
      a'.mate_drive = 1/2 ∧ a'.partner = some 1) := by
  norm_num [mateTimeoutStep, updAt, partnerOf, heardOf, timedOutAgentEx,
    timedOutPartnerEx, readyAgent, mkCreature, preyGenomeEx, cfgEx]

/-! ## Claim C2: child genome bounds and decomposer inheritance -/

/-- The §4.5 clamp-bounds table for the numeric traits. -/
def genomeInBounds (g : Genome) : Prop :=
  40 ≤ g.vision ∧ g.vision ≤ 160 ∧
  1/2 ≤ g.speed ∧ g.speed ≤ 16/10 ∧
  1/2 ≤ g.size ∧ g.size ≤ 16/10 ∧
  1/2 ≤ g.metabolism ∧ g.metabolism ≤ 3/2 ∧
  0 ≤ g.aggression ∧ g.aggression ≤ 1 ∧
  4/10 ≤ g.toxin ∧ g.toxin ≤ 2

lemma crossGenome_bounds (g1 g2 : Genome) (ns : TraitNoise) :
    genomeInBounds (crossGenome g1 g2 ns) := by
  unfold genomeInBounds
  simp only [crossGenome]
  exact ⟨le_clamp _ _ _, clamp_le _ _ _ (by norm_num),
    le_clamp _ _ _, clamp_le _ _ _ (by norm_num),
    le_clamp _ _ _, clamp_le _ _ _ (by norm_num),
    le_clamp _ _ _, clamp_le _ _ _ (by norm_num),
    le_clamp _ _ _, clamp_le _ _ _ (by norm_num),
    le_clamp _ _ _, clamp_le _ _ _ (by norm_num)⟩

lemma mateSucceed_inv (cfg : Config) (i p : ℕ) (rnd : MateRand) (d2 : ℚ)
    (s : Store) (res : MateSuccess) (s' : Store)
    (h : mateSucceed cfg i p rnd d2 s = (some res, s')) :
    ∃ a c, s[i]? = some a ∧ s[p]? = some c ∧ res.mateIdx = p ∧
      res.child.genome = { crossGenome a.genome c.genome rnd.noise with
        is_decomposer := a.genome.is_decomposer } ∧
      res.child.generation = max a.generation c.generation + 1 := by
  unfold mateSucceed at h
  cases hsi : s[i]? with
  | none => rw [hsi] at h; exact absurd h (by simp)
  | some a =>
    cases hsp : s[p]? with
    | none => rw [hsi, hsp] at h; exact absurd h (by simp)
    | some c =>
      rw [hsi, hsp] at h
      dsimp only at h
      split_ifs at h with hq1 hq2 hq3
      · exact absurd h (by simp)
      · rw [Prod.mk.injEq] at h
        obtain ⟨h1, _⟩ := h
        injection h1 with h1
        subst h1
        exact ⟨a, c, rfl, rfl, rfl, rfl, rfl⟩
      · exact absurd h (by simp)
      · rw [Prod.mk.injEq] at h
        obtain ⟨h1, _⟩ := h
        injection h1 with h1
        subst h1
        exact ⟨a, c, rfl, rfl, rfl, rfl, rfl⟩

lemma mateSucceed_store (cfg : Config) (i p : ℕ) (rnd : MateRand) (d2 : ℚ)
    (s : Store) (res : MateSuccess) (s' : Store)
    (h : mateSucceed cfg i p rnd d2 s = (some res, s')) :
    partnerOf s' i = none ∧ partnerOf s' p = none := by
  unfold mateSucceed at h
  cases hsi : s[i]? with
  | none => rw [hsi] at h; exact absurd h (by simp)
  | some a =>
    cases hsp : s[p]? with
    | none => rw [hsi, hsp] at h; exact absurd h (by simp)
    | some c =>
      have hleni : i < s.length := getElem?_some_lt hsi
      rw [hsi, hsp] at h
      dsimp only at h
      split_ifs at h with hq1 hq2 hq3
      · exact absurd h (by simp)
      · rw [Prod.mk.injEq] at h
        obtain ⟨_, h2⟩ := h
        subst h2
        constructor
        · by_cases hpi : p = i
          · subst hpi
            unfold partnerOf
            rw [updAt_getElem_self, List.getElem?_set_eq_of_lt _ hleni]
            rfl
          · unfold partnerOf
            rw [updAt_getElem_ne _ p i _ hpi, List.getElem?_set_eq_of_lt _ hleni]
            rfl
        · by_cases hpi : p = i
          · subst hpi
            unfold partnerOf
            rw [updAt_getElem_self, List.getElem?_set_eq_of_lt _ hleni]
            rfl
          · unfold partnerOf
            rw [updAt_getElem_self,
              List.getElem?_set_ne (fun hh => hpi hh.symm), hsp]
            rfl
      · exact absurd h (by simp)
      · rw [Prod.mk.injEq] at h
        obtain ⟨_, h2⟩ := h
        subst h2
        constructor
        · by_cases hpi : p = i
          · subst hpi
            unfold partnerOf
            rw [updAt_getElem_self, List.getElem?_set_eq_of_lt _ hleni]
            rfl
          · unfold partnerOf
            rw [updAt_getElem_ne _ p i _ hpi, List.getElem?_set_eq_of_lt _ hleni]
            rfl
        · by_cases hpi : p = i
          · subst hpi
            unfold partnerOf
            rw [updAt_getElem_self, List.getElem?_set_eq_of_lt _ hleni]
            rfl
          · unfold partnerOf
            rw [updAt_getElem_self,
              List.getElem?_set_ne (fun hh => hpi hh.symm), hsp]
            rfl

lemma mateSucceed_mateIdx (cfg : Config) (i p : ℕ) (rnd : MateRand) (d2 : ℚ)
    (s : Store) (res : MateSuccess) (s' : Store)
    (h : mateSucceed cfg i p rnd d2 s = (some res, s')) : res.mateIdx = p :=
  (mateSucceed_inv cfg i p rnd d2 s res s' h).choose_spec.choose_spec.2.2.1

lemma tryMate_success_inv (cfg : Config) (i : ℕ) (nests : List Nest)
    (rnd : MateRand) (s : Store) (res : MateSuccess) (s' : Store)
    (h : tryMate cfg i nests rnd s = (some res, s')) :
    ∃ a d2, s[i]? = some a ∧
      mateSucceed cfg i res.mateIdx rnd d2 s = (some res, s') ∧
      (a.genome.is_decomposer = true →
        ∃ q, s[res.mateIdx]? = some q ∧ q.genome.is_decomposer = true) := by
  unfold tryMate at h
  cases hsi : s[i]? with
  | none => rw [hsi] at h; exact absurd h (by simp)
  | some a =>
    rw [hsi] at h
    dsimp only at h
    by_cases h1 : (¬a.ready_to_mate = true ∨ ¬a.alive = true)
    · rw [if_pos h1] at h; exact absurd h (by simp)
    · rw [if_neg h1] at h
      cases hnest : getNest nests a.genome with
      | none => rw [hnest] at h; exact absurd h (by simp)
      | some myNest =>
        rw [hnest] at h
        dsimp only at h
        by_cases h2 : (a.genome.aggression > 6/10 ∧
            ¬(canEnter a.genome myNest = true ∧ myNest.containsPt a.x a.y))
        · rw [if_pos h2] at h; exact absurd h (by simp)
        · rw [if_neg h2] at h
          by_cases h3 : ¬myNest.containsPt a.x a.y
          · rw [if_pos h3] at h; exact absurd h (by simp)
          · rw [if_neg h3] at h
            by_cases h4 : a.genome.is_decomposer = true
            · -- decomposer path
              rw [if_pos h4] at h
              cases hpart : a.partner with
              | none => rw [hpart] at h; exact absurd h (by simp)
              | some p =>
                rw [hpart] at h
                dsimp only at h
                cases hsp : s[p]? with
                | none => rw [hsp] at h; exact absurd h (by simp)
                | some q =>
                  rw [hsp] at h
                  dsimp only at h
                  by_cases h5 : (¬q.alive = true)
                  · rw [if_pos h5] at h; exact absurd h (by simp)
                  · rw [if_neg h5] at h
                    by_cases h6 : (getNest nests q.genome = some myNest ∧
                        myNest.containsPt q.x q.y)
                    · rw [if_pos h6] at h
                      by_cases h7 : (q.alive = true ∧ q.ready_to_mate = true)
                      · rw [if_pos h7] at h
                        have hidx := mateSucceed_mateIdx cfg i p rnd 0 s res s' h
                        refine ⟨a, 0, rfl, by rw [hidx]; exact h, ?_⟩
                        intro hdec
                        refine ⟨q, by rw [hidx]; exact hsp, ?_⟩
                        have htypeA : myNest.type = NestType.decomposer := by
                          unfold getNest at hnest
                          rw [if_pos hdec] at hnest
                          have := List.find?_some hnest
                          simpa using this
                        by_contra hq
                        have hqfalse : q.genome.is_decomposer = false :=
                          Bool.eq_false_iff.mpr hq
                        obtain ⟨hq1, _⟩ := h6
                        unfold getNest at hq1
                        rw [hqfalse] at hq1
                        simp only [Bool.false_eq_true, if_false] at hq1
                        split_ifs at hq1 with hagg
                        · have := List.find?_some hq1
                          rw [beq_iff_eq] at this
                          rw [this] at htypeA
                          exact NestType.noConfusion htypeA
                        · have := List.find?_some hq1
                          rw [beq_iff_eq] at this
                          rw [this] at htypeA
                          exact NestType.noConfusion htypeA
                      · rw [if_neg h7] at h; exact absurd h (by simp)
                    · rw [if_neg h6] at h; exact absurd h (by simp)
            · -- non-decomposer path: selection loop then success
              rw [if_neg h4] at h
              cases hsel : ((List.range s.length).foldl
                  (mateSelectVisit cfg i s nests myNest
                    (decide (a.genome.aggression > 6/10))) (none, (9999 : ℚ) ^ 2)).1 with
              | none => rw [hsel] at h; exact absurd h (by simp)
              | some p =>
                rw [hsel] at h
                dsimp only at h
                have hidx := mateSucceed_mateIdx cfg i p rnd _ s res s' h
                refine ⟨a, _, rfl, by rw [hidx]; exact h, ?_⟩
                intro hdec
                exact absurd hdec (by simpa using h4)

/-- C2: whenever try_mate succeeds, every numeric trait of the child genome
lies within its §4.5 clamp bounds, and the child's is_decomposer flag equals
the conjunction of the two parents' flags — the line-485 overwrite with the
caller's flag is harmless because a decomposer caller can only have reached
the success block with a decomposer partner (their home-nest lookups must
agree), and a non-decomposer caller makes both sides false. -/
theorem c2_child_genome (cfg : Config) (i : ℕ) (nests : List Nest)
    (rnd : MateRand) (s : Store) (res : MateSuccess) (s' : Store)
    (h : tryMate cfg i nests rnd s = (some res, s')) :
    genomeInBounds res.child.genome ∧
    ∃ a c, s[i]? = some a ∧ s[res.mateIdx]? = some c ∧
      res.child.genome.is_decomposer =
        (a.genome.is_decomposer && c.genome.is_decomposer) := by
  obtain ⟨a, d2, hsi, hsucc, hdec⟩ := tryMate_success_inv cfg i nests rnd s res s' h
  obtain ⟨a', c, hsi', hsp, _, hgen, _⟩ :=
    mateSucceed_inv cfg i res.mateIdx rnd d2 s res s' hsucc
  have haa : a' = a := by
    rw [hsi] at hsi'
    exact Option.some_inj.mp hsi'.symm
  rw [haa] at hgen
  constructor
  · rw [hgen]
    have hb := crossGenome_bounds a.genome c.genome rnd.noise
    unfold genomeInBounds at hb ⊢
    exact hb
  · refine ⟨a, c, hsi, hsp, ?_⟩
    rw [hgen]
    dsimp only
    cases hflag : a.genome.is_decomposer with
    | false => rfl
    | true =>
      obtain ⟨q, hq, hqdec⟩ := hdec hflag
      rw [hsp] at hq
      have : c = q := Option.some_inj.mp hq
      rw [this, hqdec, Bool.and_true]

/-! ## The two-agent mating scenario (used by claims C8 and witnesses) -/

/-- The prey nest of the static layout. -/
def preyNest (cfg : Config) : Nest :=
  ⟨cfg.width * (2/10), cfg.height * (5/10), 90, .prey⟩

/-- The predator nest of the static layout. -/
def predNest (cfg : Config) : Nest :=
  ⟨cfg.width * (8/10), cfg.height * (5/10), 90, .predator⟩

lemma getNest_prey (cfg : Config) (g : Genome) (hdec : g.is_decomposer = false)
    (hagg : ¬(g.aggression > 6/10)) :
    getNest (nestManagerNests cfg) g = some (preyNest cfg) := by
  unfold getNest nestManagerNests preyNest
  rw [hdec]
  simp [hagg]

lemma getNest_pred (cfg : Config) (g : Genome) (hdec : g.is_decomposer = false)
    (hagg : g.aggression > 6/10) :
    getNest (nestManagerNests cfg) g = some (predNest cfg) := by
  unfold getNest nestManagerNests predNest
  rw [hdec]
  simp [hagg]

lemma dist2_same (x y : ℚ) : dist2 x y x y = 0 := by
  simp [dist2]

/-- The decomposer nest of the static layout. -/
def decNest (cfg : Config) : Nest :=
  ⟨cfg.width * (5/10), cfg.height * (2/10), 90, .decomposer⟩

lemma getNest_dec (cfg : Config) (g : Genome) (hdec : g.is_decomposer = true) :
    getNest (nestManagerNests cfg) g = some (decNest cfg) := by
  unfold getNest nestManagerNests decNest
  rw [hdec]
  simp

/-- Evaluation of try_mate on a two-agent store of ready, unpaired, live
foragers standing at the same point inside the prey nest: the success branch
runs in one call. -/
lemma tryMate_prey_pair (cfg : Config) (rnd : MateRand) (a b : Agent)
    (hdecA : a.genome.is_decomposer = false)
    (_hdecB : b.genome.is_decomposer = false)
    (haggA : ¬(a.genome.aggression > 6/10)) (haggB : ¬(b.genome.aggression > 6/10))
    (hreadyA : a.ready_to_mate = true) (haliveA : a.alive = true)
    (hreadyB : b.ready_to_mate = true) (haliveB : b.alive = true)
    (hbp : b.partner = none)
    (hx : b.x = a.x) (hy : b.y = a.y)
    (hin : (preyNest cfg).containsPt a.x a.y)
    (hvision : 0 < a.genome.vision) (hradius : 0 ≤ a.radius) :
    tryMate cfg 0 (nestManagerNests cfg) rnd [a, b] =
      (some ⟨mateChild cfg rnd a b, 1⟩,
        [clearedParent (mateCost cfg false) a, clearedParent (mateCost cfg false) b]) := by
  have hPredA : decide (a.genome.aggression > 6/10) = false := by
    simpa using haggA
  have hsafe : isSafeZone (nestManagerNests cfg) a b = true := by
    unfold isSafeZone nestManagerNests
    refine List.any_eq_true.mpr ⟨⟨cfg.width * (2/10), cfg.height * (5/10), 90, .prey⟩,
      by simp, ?_⟩
    have hinb : Nest.containsPt ⟨cfg.width * (2/10), cfg.height * (5/10), 90, .prey⟩ b.x b.y := by
      rw [hx, hy]; exact hin
    simp only [Bool.and_eq_true, decide_eq_true_eq, Bool.or_eq_true, beq_iff_eq]
    exact ⟨⟨⟨⟨hin, hinb⟩, by simp⟩, by unfold canEnter; simp [not_lt.mp haggA]⟩,
      by unfold canEnter; simp [not_lt.mp haggB]⟩
  unfold tryMate
  rw [show (([a, b] : Store)[0]? = some a) from rfl]
  dsimp only
  rw [if_neg (by simp [hreadyA, haliveA]), getNest_prey cfg a.genome hdecA haggA]
  dsimp only
  rw [if_neg (fun hc => haggA hc.1), if_neg (not_not_intro hin), if_neg (by simp [hdecA])]
  rw [show List.range ([a, b] : Store).length = [0, 1] from rfl]
  simp only [List.foldl]
  rw [show mateSelectVisit cfg 0 [a, b] (nestManagerNests cfg) (preyNest cfg)
      (decide (a.genome.aggression > 6/10)) (none, (9999 : ℚ) ^ 2) 0 =
      (none, (9999 : ℚ) ^ 2) from by unfold mateSelectVisit; rw [if_pos rfl]]
  have hvisit : mateSelectVisit cfg 0 [a, b] (nestManagerNests cfg) (preyNest cfg)
      (decide (a.genome.aggression > 6/10)) (none, (9999 : ℚ) ^ 2) 1 = (some 1, 0) := by
    unfold mateSelectVisit
    rw [if_neg (by norm_num)]
    rw [show (([a, b] : Store)[0]? = some a) from rfl,
      show (([a, b] : Store)[1]? = some b) from rfl]
    dsimp only
    rw [if_neg (by simp [hreadyB, haliveB, hbp]), hPredA]
    simp only [Bool.false_eq_true, if_false, hsafe, if_true]
    rw [hx, hy, dist2_same]
    rw [if_pos ⟨by norm_num, ⟨by positivity, by positivity⟩⟩]
  rw [hvisit]
  dsimp only
  unfold mateSucceed
  rw [show (([a, b] : Store)[0]? = some a) from rfl,
    show (([a, b] : Store)[1]? = some b) from rfl]
  dsimp only
  rw [hPredA]
  simp only [Bool.false_eq_true, if_false]
  rw [if_neg (by
    unfold distGt2
    push_neg
    exact ⟨by nlinarith, by positivity⟩)]
  unfold updAt
  rw [show ((List.set ([a, b] : Store) 0 (clearedParent (mateCost cfg false) a))[1]? =
    some b) from rfl]
  rfl

/-! ## Claim C8: one tick of the mating path -/

/-- The caller after the unpaired-timeout bookkeeping of the mate branch:
mate_attempt_timer reset to 0; the partner field, none by hypothesis
wherever this is used, is written out as none. -/
def c8Reset (a : Agent) : Agent :=
  { a with mate_attempt_timer := 0, partner := none }

/-- The caller right after broadcast_call sets its calling state. -/
def c8Calling (cfg : Config) (a : Agent) : Agent :=
  { a with
    calling := true, call_timer := cfg.callDuration,
    call_cooldown := if decide (a.genome.aggression > 6/10) then (5/2 : ℚ) else 7/2 }

/-- The caller of the two-agent scenario after its listener responded:
calling state set and paired to index 1, with the response's cues. -/
def c8Caller (cfg : Config) (a : Agent) : Agent :=
  { c8Calling cfg a with
    partner := some 1, flash_timer := 8/10, heart_pulse_timer := 12/10 }

/-- The responder of the two-agent scenario: heard the call from index 0 and
paired to it by respond_to_call. -/
def c8Responder (cfg : Config) (b : Agent) : Agent :=
  { b with
    heard_call := some 0, responding := true,
    response_timer := cfg.responseCallDuration, partner := some 0,
    flash_timer := 8/10, heart_pulse_timer := 12/10 }

lemma callRange_pos (g : Genome) (ip : Bool) (h : 0 < g.vision) :
    0 < callRange g ip := by
  have hq : (0 : ℚ) < g.vision / 100 := div_pos h (by norm_num)
  unfold callRange
  cases ip
  · simpa using mul_pos (by norm_num : (0 : ℚ) < 350) hq
  · simpa using mul_pos (by norm_num : (0 : ℚ) < 450) hq

/-- The timeout bookkeeping of an unpaired caller only resets its
mate_attempt_timer. -/
lemma mateTimeoutStep_unpaired (dt : ℚ) (a b : Agent) (hap : a.partner = none) :
    mateTimeoutStep 0 dt [a, b] = [c8Reset a, b] := by
  unfold mateTimeoutStep
  rw [show (([a, b] : Store)[0]? = some a) from rfl]
  dsimp only
  rw [hap]
  dsimp only
  rw [if_neg Bool.false_ne_true]
  rw [show (([a, b] : Store)[0]? = some a) from rfl]
  dsimp only
  rw [hap]
  rfl

/-- The partner-validity check leaves an agent with an enterable home nest
untouched. -/
lemma mateHomeCheck_ok (nests : List Nest) (n : Nest) (s : Store) (i : ℕ)
    (a : Agent) (hsi : s[i]? = some a)
    (hg : getNest nests a.genome = some n) (hcan : canEnter a.genome n = true) :
    mateHomeCheck i nests s = s := by
  unfold mateHomeCheck
  rw [hsi]
  dsimp only
  cases hpart : a.partner with
  | none => rfl
  | some p =>
    rw [hg]
    dsimp only
    rw [if_pos hcan]

/-- broadcast_call on the two-agent scenario: the caller sets its calling
state, the listener hears the call and respond_to_call pairs the two. -/
lemma broadcastCall_pair (cfg : Config) (nests : List Nest) (n : Nest) (a b : Agent)
    (hgA : getNest nests a.genome = some n) (hgB : getNest nests b.genome = some n)
    (hcan : canEnter a.genome n = true)
    (hreadyA : a.ready_to_mate = true) (haliveA : a.alive = true)
    (hreadyB : b.ready_to_mate = true) (haliveB : b.alive = true)
    (hap : a.partner = none) (hbp : b.partner = none)
    (hx : b.x = a.x) (hy : b.y = a.y)
    (hcd : a.call_cooldown ≤ 0) (hvision : 0 < a.genome.vision) :
    broadcastCall cfg 0 nests [a, b] = [c8Caller cfg a, c8Responder cfg b] := by
  unfold broadcastCall
  rw [show (([a, b] : Store)[0]? = some a) from rfl]
  dsimp only
  rw [if_neg (by simp [hreadyA, haliveA]), if_neg (by simp [hap]), hgA]
  dsimp only
  rw [if_neg (by simp [hcan]), if_pos hcd]
  show List.foldl (broadcastVisit cfg 0 nests n
      (callRange a.genome (decide (a.genome.aggression > 6/10))))
    [c8Calling cfg a, b] [0, 1] = [c8Caller cfg a, c8Responder cfg b]
  simp only [List.foldl]
  rw [show broadcastVisit cfg 0 nests n
      (callRange a.genome (decide (a.genome.aggression > 6/10)))
      [c8Calling cfg a, b] 0 = [c8Calling cfg a, b] from by
    unfold broadcastVisit
    rw [if_pos rfl]]
  have hdist : distLt (c8Calling cfg a).x (c8Calling cfg a).y b.x b.y
      (callRange a.genome (decide (a.genome.aggression > 6/10))) := by
    have hrng := callRange_pos a.genome (decide (a.genome.aggression > 6/10)) hvision
    refine ⟨hrng, ?_⟩
    show dist2 a.x a.y b.x b.y < _
    rw [hx, hy, dist2_same]
    exact pow_pos hrng 2
  rw [show broadcastVisit cfg 0 nests n
      (callRange a.genome (decide (a.genome.aggression > 6/10)))
      [c8Calling cfg a, b] 1 = [c8Caller cfg a, c8Responder cfg b] from by
    unfold broadcastVisit
    rw [if_neg (by norm_num)]
    rw [show (([c8Calling cfg a, b] : Store)[0]? = some (c8Calling cfg a)) from rfl,
      show (([c8Calling cfg a, b] : Store)[1]? = some b) from rfl]
    dsimp only
    rw [if_neg (by simp [hreadyB, haliveB]), if_neg (by simp [hgB]), if_pos hdist]
    rw [show updAt ([c8Calling cfg a, b] : Store) 1
        (fun q => { q with heard_call := some 0 }) =
        [c8Calling cfg a, { b with heard_call := some 0 }] from rfl]
    unfold respondToCall
    rw [show (([c8Calling cfg a, { b with heard_call := some 0 }] : Store)[1]? =
      some { b with heard_call := some 0 }) from rfl]
    dsimp only
    rw [if_neg (by simp [hreadyB, haliveB, hbp])]
    rfl]

/-- try_mate after the mid-tick pairing, decomposer caller: the decomposer
branch mates with the existing partner directly and the success block runs. -/
lemma tryMate_paired_dec (cfg : Config) (rnd : MateRand) (u v : Agent)
    (hdecU : u.genome.is_decomposer = true) (hdecV : v.genome.is_decomposer = true)
    (hreadyU : u.ready_to_mate = true) (haliveU : u.alive = true)
    (hreadyV : v.ready_to_mate = true) (haliveV : v.alive = true)
    (hup : u.partner = some 1)
    (hx : v.x = u.x) (hy : v.y = u.y)
    (hin : (decNest cfg).containsPt u.x u.y) (hradius : 0 ≤ u.radius) :
    tryMate cfg 0 (nestManagerNests cfg) rnd [u, v] =
      (some ⟨mateChild cfg rnd u v, 1⟩,
        [clearedParent (mateCost cfg (decide (u.genome.aggression > 6/10))) u,
         clearedParent (mateCost cfg (decide (u.genome.aggression > 6/10))) v]) := by
  have hgU := getNest_dec cfg u.genome hdecU
  have hgV := getNest_dec cfg v.genome hdecV
  have hcanU : canEnter u.genome (decNest cfg) = true := by
    unfold canEnter decNest
    simp [hdecU]
  have hinV : (decNest cfg).containsPt v.x v.y := by
    rw [hx, hy]; exact hin
  unfold tryMate
  rw [show (([u, v] : Store)[0]? = some u) from rfl]
  dsimp only
  rw [if_neg (by simp [hreadyU, haliveU]), hgU]
  dsimp only
  rw [if_neg (fun hc => hc.2 ⟨hcanU, hin⟩), if_neg (not_not_intro hin),
    if_pos hdecU, hup]
  dsimp only
  rw [show (([u, v] : Store)[1]? = some v) from rfl]
  dsimp only
  rw [if_neg (by simp [haliveV]), if_pos ⟨hgV, hinV⟩, if_pos ⟨haliveV, hreadyV⟩]
  unfold mateSucceed
  rw [show (([u, v] : Store)[0]? = some u) from rfl,
    show (([u, v] : Store)[1]? = some v) from rfl]
  dsimp only
  rw [if_neg (by
    unfold distGt2
    push_neg
    refine ⟨?_, sq_nonneg _⟩
    split <;> linarith)]
  unfold updAt
  rw [show ((List.set ([u, v] : Store) 0
    (clearedParent (mateCost cfg (decide (u.genome.aggression > 6/10))) u))[1]? =
    some v) from rfl]
  rfl

/-- try_mate after the mid-tick pairing, non-decomposer caller: the
partner-selection loop skips the candidate because its partner reference is
set, so no child is produced. -/
lemma tryMate_paired_nondec (cfg : Config) (rnd : MateRand) (n : Nest) (u v : Agent)
    (hdecU : u.genome.is_decomposer = false)
    (hreadyU : u.ready_to_mate = true) (haliveU : u.alive = true)
    (hvp : v.partner.isSome = true)
    (hg : getNest (nestManagerNests cfg) u.genome = some n)
    (hcan : canEnter u.genome n = true) (hin : n.containsPt u.x u.y) :
    tryMate cfg 0 (nestManagerNests cfg) rnd [u, v] = (none, [u, v]) := by
  unfold tryMate
  rw [show (([u, v] : Store)[0]? = some u) from rfl]
  dsimp only
  rw [if_neg (by simp [hreadyU, haliveU]), hg]
  dsimp only
  rw [if_neg (fun hc => hc.2 ⟨hcan, hin⟩), if_neg (not_not_intro hin),
    if_neg (by simp [hdecU])]
  rw [show List.range ([u, v] : Store).length = [0, 1] from rfl]
  simp only [List.foldl]
  rw [show mateSelectVisit cfg 0 [u, v] (nestManagerNests cfg) n
      (decide (u.genome.aggression > 6/10)) (none, (9999 : ℚ) ^ 2) 0 =
      (none, (9999 : ℚ) ^ 2) from by unfold mateSelectVisit; rw [if_pos rfl]]
  rw [show mateSelectVisit cfg 0 [u, v] (nestManagerNests cfg) n
      (decide (u.genome.aggression > 6/10)) (none, (9999 : ℚ) ^ 2) 1 =
      (none, (9999 : ℚ) ^ 2) from by
    unfold mateSelectVisit
    rw [if_neg (by norm_num)]
    rw [show (([u, v] : Store)[0]? = some u) from rfl,
      show (([u, v] : Store)[1]? = some v) from rfl]
    dsimp only
    rw [if_pos (Or.inr (Or.inr hvp))]]

/-- One tick of the mating path for a decomposer pair: the broadcast pairs
the two and try_mate's decomposer branch then produces the child. -/
lemma mateTick_pair_dec (cfg : Config) (rnd : MateRand) (dt : ℚ) (a b : Agent)
    (hdecA : a.genome.is_decomposer = true) (hdecB : b.genome.is_decomposer = true)
    (hreadyA : a.ready_to_mate = true) (haliveA : a.alive = true)
    (hreadyB : b.ready_to_mate = true) (haliveB : b.alive = true)
    (hap : a.partner = none) (hbp : b.partner = none)
    (hx : b.x = a.x) (hy : b.y = a.y)
    (hcall : a.calling = false) (hcd : a.call_cooldown ≤ 0)
    (hin : (decNest cfg).containsPt a.x a.y)
    (hvision : 0 < a.genome.vision) (hradius : 0 ≤ a.radius) :
    mateTick cfg 0 (nestManagerNests cfg) rnd dt [a, b] =
      (some ⟨mateChild cfg rnd a b, 1⟩,
        [clearedParent (mateCost cfg (decide (a.genome.aggression > 6/10)))
           (c8Caller cfg (c8Reset a)),
         clearedParent (mateCost cfg (decide (a.genome.aggression > 6/10)))
           (c8Responder cfg b),
         mateChild cfg rnd a b]) := by
  have hgA := getNest_dec cfg a.genome hdecA
  have hgB := getNest_dec cfg b.genome hdecB
  have hcanA : canEnter a.genome (decNest cfg) = true := by
    unfold canEnter decNest
    simp [hdecA]
  unfold mateTick
  rw [mateTimeoutStep_unpaired dt a b hap]
  dsimp only
  rw [show (([c8Reset a, b] : Store)[0]? = some (c8Reset a)) from rfl]
  dsimp only
  rw [if_pos (show (c8Reset a).calling = false ∧ (c8Reset a).call_cooldown ≤ 0 from
    ⟨hcall, hcd⟩)]
  rw [broadcastCall_pair cfg (nestManagerNests cfg) (decNest cfg) (c8Reset a) b
    hgA hgB hcanA hreadyA haliveA hreadyB haliveB rfl hbp hx hy hcd hvision]
  rw [mateHomeCheck_ok (nestManagerNests cfg) (decNest cfg)
    [c8Caller cfg (c8Reset a), c8Responder cfg b] 0 (c8Caller cfg (c8Reset a))
    rfl hgA hcanA]
  rw [tryMate_paired_dec cfg rnd (c8Caller cfg (c8Reset a)) (c8Responder cfg b)
    hdecA hdecB hreadyA haliveA hreadyB haliveB rfl hx hy hin hradius]
  rfl

/-- One tick of the mating path for a forager or predator pair: the
broadcast pairs the two, and try_mate then returns no child because the
selection loop skips already-paired candidates. -/
lemma mateTick_pair_nondec (cfg : Config) (rnd : MateRand) (dt : ℚ) (n : Nest)
    (a b : Agent)
    (hdecA : a.genome.is_decomposer = false)
    (hg : getNest (nestManagerNests cfg) a.genome = some n)
    (hgB : getNest (nestManagerNests cfg) b.genome = some n)
    (hcan : canEnter a.genome n = true) (hin : n.containsPt a.x a.y)
    (hreadyA : a.ready_to_mate = true) (haliveA : a.alive = true)
    (hreadyB : b.ready_to_mate = true) (haliveB : b.alive = true)
    (hap : a.partner = none) (hbp : b.partner = none)
    (hx : b.x = a.x) (hy : b.y = a.y)
    (hcall : a.calling = false) (hcd : a.call_cooldown ≤ 0)
    (hvision : 0 < a.genome.vision) :
    mateTick cfg 0 (nestManagerNests cfg) rnd dt [a, b] =
      (none, [c8Caller cfg (c8Reset a), c8Responder cfg b]) := by
  unfold mateTick
  rw [mateTimeoutStep_unpaired dt a b hap]
  dsimp only
  rw [show (([c8Reset a, b] : Store)[0]? = some (c8Reset a)) from rfl]
  dsimp only
  rw [if_pos (show (c8Reset a).calling = false ∧ (c8Reset a).call_cooldown ≤ 0 from
    ⟨hcall, hcd⟩)]
  rw [broadcastCall_pair cfg (nestManagerNests cfg) n (c8Reset a) b
    hg hgB hcan hreadyA haliveA hreadyB haliveB rfl hbp hx hy hcd hvision]
  rw [mateHomeCheck_ok (nestManagerNests cfg) n
    [c8Caller cfg (c8Reset a), c8Responder cfg b] 0 (c8Caller cfg (c8Reset a))
    rfl hg hcan]
  rw [tryMate_paired_nondec cfg rnd n (c8Caller cfg (c8Reset a)) (c8Responder cfg b)
    hdecA hreadyA haliveA rfl hg hcan hin]

/-- C8 (amended): for two ready-to-mate, unpaired, live, same-species agents
at zero distance inside their shared compatible home zone, both at full
energy and with the caller not already calling and its call cooldown
expired, one tick of the mating path first pairs the two agents mid-tick
(broadcast_call lets the listener respond_to_call, setting both partner
references); then, for a decomposer pair, try_mate produces exactly one
child — each parent's energy is multiplied by (1 − cost) with the
species-dependent cost fraction, ready_to_mate becomes false on both, and
the child's generation is max(parents) + 1 — while for a forager or
predator pair NO child is produced that tick: try_mate's partner-selection
loop skips every candidate whose partner reference is set, and the
broadcast has just set the candidate's, so the pair ends the tick mutually
paired, still ready to mate, at unchanged energy. The predators' cost
fraction (0.6·MATING_COST) is strictly below the others' (0.8·MATING_COST)
whenever MATING_COST is positive. -/
theorem c8_mating_tick (cfg : Config) (rnd : MateRand) (dt : ℚ) (a b : Agent)
    (hspecies :
      (a.genome.is_decomposer = false ∧ b.genome.is_decomposer = false ∧
        a.genome.aggression > 6/10 ∧ b.genome.aggression > 6/10 ∧
        (predNest cfg).containsPt a.x a.y) ∨
      (a.genome.is_decomposer = false ∧ b.genome.is_decomposer = false ∧
        ¬(a.genome.aggression > 6/10) ∧ ¬(b.genome.aggression > 6/10) ∧
        (preyNest cfg).containsPt a.x a.y) ∨
      (a.genome.is_decomposer = true ∧ b.genome.is_decomposer = true ∧
        (decNest cfg).containsPt a.x a.y))
    (hreadyA : a.ready_to_mate = true) (haliveA : a.alive = true)
    (hreadyB : b.ready_to_mate = true) (haliveB : b.alive = true)
    (hap : a.partner = none) (hbp : b.partner = none)
    (hx : b.x = a.x) (hy : b.y = a.y)
    (hcall : a.calling = false) (hcd : a.call_cooldown ≤ 0)
    (hfullA : a.energy = a.energy_max) (hfullB : b.energy = b.energy_max)
    (hvision : 0 < a.genome.vision) (hradius : 0 ≤ a.radius) :
    (a.genome.is_decomposer = true →
      (mateTick cfg 0 (nestManagerNests cfg) rnd dt [a, b]).1 =
        some ⟨mateChild cfg rnd a b, 1⟩ ∧
      (mateTick cfg 0 (nestManagerNests cfg) rnd dt [a, b]).2.length = 3 ∧
      energyOf (mateTick cfg 0 (nestManagerNests cfg) rnd dt [a, b]).2 0 =
        some (a.energy_max *
          (1 - mateCost cfg (decide (a.genome.aggression > 6/10)))) ∧
      energyOf (mateTick cfg 0 (nestManagerNests cfg) rnd dt [a, b]).2 1 =
        some (b.energy_max *
          (1 - mateCost cfg (decide (a.genome.aggression > 6/10)))) ∧
      readyOf (mateTick cfg 0 (nestManagerNests cfg) rnd dt [a, b]).2 0 =
        some false ∧
      readyOf (mateTick cfg 0 (nestManagerNests cfg) rnd dt [a, b]).2 1 =
        some false ∧
      (mateChild cfg rnd a b).generation = max a.generation b.generation + 1) ∧
    (a.genome.is_decomposer = false →
      (mateTick cfg 0 (nestManagerNests cfg) rnd dt [a, b]).1 = none ∧
      (mateTick cfg 0 (nestManagerNests cfg) rnd dt [a, b]).2.length = 2 ∧
      partnerOf (mateTick cfg 0 (nestManagerNests cfg) rnd dt [a, b]).2 0 =
        some 1 ∧
      partnerOf (mateTick cfg 0 (nestManagerNests cfg) rnd dt [a, b]).2 1 =
        some 0 ∧
      energyOf (mateTick cfg 0 (nestManagerNests cfg) rnd dt [a, b]).2 0 =
        some a.energy ∧
      energyOf (mateTick cfg 0 (nestManagerNests cfg) rnd dt [a, b]).2 1 =
        some b.energy ∧
      readyOf (mateTick cfg 0 (nestManagerNests cfg) rnd dt [a, b]).2 0 =
        some true ∧
      readyOf (mateTick cfg 0 (nestManagerNests cfg) rnd dt [a, b]).2 1 =
        some true) ∧
    (0 < cfg.matingCost → mateCost cfg true < mateCost cfg false) := by
  have hcost : 0 < cfg.matingCost → mateCost cfg true < mateCost cfg false := by
    intro hm
    show cfg.matingCost * (6/10) < cfg.matingCost * (8/10)
    nlinarith
  rcases hspecies with ⟨hdA, hdB, haggA, haggB, hin⟩ | ⟨hdA, hdB, haggA, haggB, hin⟩ |
    ⟨hdA, hdB, hin⟩
  · have hg := getNest_pred cfg a.genome hdA haggA
    have hgB := getNest_pred cfg b.genome hdB haggB
    have hcan : canEnter a.genome (predNest cfg) = true := by
      unfold canEnter predNest
      simp [haggA, hdA]
    have heval := mateTick_pair_nondec cfg rnd dt (predNest cfg) a b hdA hg hgB hcan
      hin hreadyA haliveA hreadyB haliveB hap hbp hx hy hcall hcd hvision
    refine ⟨fun h => absurd h (by simp [hdA]), fun _ => ?_, hcost⟩
    rw [heval]
    refine ⟨rfl, rfl, rfl, rfl, rfl, rfl, ?_, ?_⟩
    · show (some a.ready_to_mate : Option Bool) = some true
      rw [hreadyA]
    · show (some b.ready_to_mate : Option Bool) = some true
      rw [hreadyB]
  · have hg := getNest_prey cfg a.genome hdA haggA
    have hgB := getNest_prey cfg b.genome hdB haggB
    have hcan : canEnter a.genome (preyNest cfg) = true := by
      unfold canEnter preyNest
      simp [not_lt.mp haggA]
    have heval := mateTick_pair_nondec cfg rnd dt (preyNest cfg) a b hdA hg hgB hcan
      hin hreadyA haliveA hreadyB haliveB hap hbp hx hy hcall hcd hvision
    refine ⟨fun h => absurd h (by simp [hdA]), fun _ => ?_, hcost⟩
    rw [heval]
    refine ⟨rfl, rfl, rfl, rfl, rfl, rfl, ?_, ?_⟩
    · show (some a.ready_to_mate : Option Bool) = some true
      rw [hreadyA]
    · show (some b.ready_to_mate : Option Bool) = some true
      rw [hreadyB]
  · have heval := mateTick_pair_dec cfg rnd dt a b hdA hdB hreadyA haliveA hreadyB
      haliveB hap hbp hx hy hcall hcd hin hvision hradius
    refine ⟨fun _ => ?_, fun h => absurd h (by simp [hdA]), hcost⟩
    rw [heval]
    refine ⟨rfl, rfl, ?_, ?_, rfl, rfl, rfl⟩
    · show some (a.energy * (1 - mateCost cfg (decide (a.genome.aggression > 6/10)))) =
        some (a.energy_max * (1 - mateCost cfg (decide (a.genome.aggression > 6/10))))
      rw [hfullA]
    · show some (b.energy * (1 - mateCost cfg (decide (a.genome.aggression > 6/10)))) =
        some (b.energy_max * (1 - mateCost cfg (decide (a.genome.aggression > 6/10))))
      rw [hfullB]

/-- The random draws used by the concrete mating evaluations. -/
def rndEx : MateRand :=
  { noise := ⟨0, 0, 0, 0, 0, 0⟩, jx := 0, jy := 0, uEnergy := 8/10,
    childCooldown := 0, childInitEnergyFrac := 8/10 }

/-- A full-energy ready forager at the prey nest center. -/
def mateAEx : Agent := { readyAgent 200 375 preyGenomeEx with energy := 100 }

/-- C8 counterexample: at the original claim's own scenario — two ready,
unpaired, live, full-energy foragers at zero distance at the prey nest
center, the caller not calling and its call cooldown expired — one tick of
the mating path produces NO child instead of the claimed exactly one:
broadcast_call pairs the two agents mid-tick, and try_mate's
partner-selection loop (creature.py line 424) then skips the freshly paired
candidate. -/
theorem c8_tick_counterexample :
    mateAEx.ready_to_mate = true ∧ mateAEx.alive = true ∧
    mateAEx.partner = none ∧ mateAEx.energy = mateAEx.energy_max ∧
    (mateTick cfgEx 0 (nestManagerNests cfgEx) rndEx 1 [mateAEx, mateAEx]).1 = none ∧
    partnerOf (mateTick cfgEx 0 (nestManagerNests cfgEx) rndEx 1
      [mateAEx, mateAEx]).2 0 = some 1 := by
  have haggA : ¬(mateAEx.genome.aggression > 6/10) := by
    norm_num [mateAEx, readyAgent, mkCreature, preyGenomeEx]
  have heval := mateTick_pair_nondec cfgEx rndEx 1 (preyNest cfgEx) mateAEx mateAEx
    rfl (getNest_prey cfgEx mateAEx.genome rfl haggA)
    (getNest_prey cfgEx mateAEx.genome rfl haggA)
    (by unfold canEnter preyNest; simp [not_lt.mp haggA])
    (by norm_num [preyNest, Nest.containsPt, distLe, dist2, mateAEx, readyAgent,
      mkCreature, cfgEx])
    rfl rfl rfl rfl rfl rfl rfl rfl rfl
    (by norm_num [mateAEx, readyAgent, mkCreature])
    (by norm_num [mateAEx, readyAgent, mkCreature, preyGenomeEx])
  refine ⟨rfl, rfl, rfl, ?_, ?_, ?_⟩
  · norm_num [mateAEx, readyAgent, mkCreature, preyGenomeEx, cfgEx]
  · rw [heval]
  · rw [heval]
    rfl

/-- A full-energy ready decomposer at the decomposer nest center, unpaired. -/
def decMateEx : Agent := { readyAgent 500 150 decGenomeEx with energy := 100 }

/-- C8 witness: the concrete decomposer pair at the decomposer nest center
runs one full tick of the mating path and produces exactly one child. -/
theorem c8_mating_tick_witness :
    (decMateEx.genome.is_decomposer = true →
      (mateTick cfgEx 0 (nestManagerNests cfgEx) rndEx 1 [decMateEx, decMateEx]).1 =
        some ⟨mateChild cfgEx rndEx decMateEx decMateEx, 1⟩ ∧
      (mateTick cfgEx 0 (nestManagerNests cfgEx) rndEx 1
        [decMateEx, decMateEx]).2.length = 3 ∧
      energyOf (mateTick cfgEx 0 (nestManagerNests cfgEx) rndEx 1
          [decMateEx, decMateEx]).2 0 =
        some (decMateEx.energy_max *
          (1 - mateCost cfgEx (decide (decMateEx.genome.aggression > 6/10)))) ∧
      energyOf (mateTick cfgEx 0 (nestManagerNests cfgEx) rndEx 1
          [decMateEx, decMateEx]).2 1 =
        some (decMateEx.energy_max *
          (1 - mateCost cfgEx (decide (decMateEx.genome.aggression > 6/10)))) ∧
      readyOf (mateTick cfgEx 0 (nestManagerNests cfgEx) rndEx 1
        [decMateEx, decMateEx]).2 0 = some false ∧
      readyOf (mateTick cfgEx 0 (nestManagerNests cfgEx) rndEx 1
        [decMateEx, decMateEx]).2 1 = some false ∧
      (mateChild cfgEx rndEx decMateEx decMateEx).generation =
        max decMateEx.generation decMateEx.generation + 1) ∧
    (decMateEx.genome.is_decomposer = false →
      (mateTick cfgEx 0 (nestManagerNests cfgEx) rndEx 1 [decMateEx, decMateEx]).1 =
        none ∧
      (mateTick cfgEx 0 (nestManagerNests cfgEx) rndEx 1
        [decMateEx, decMateEx]).2.length = 2 ∧
      partnerOf (mateTick cfgEx 0 (nestManagerNests cfgEx) rndEx 1
        [decMateEx, decMateEx]).2 0 = some 1 ∧
      partnerOf (mateTick cfgEx 0 (nestManagerNests cfgEx) rndEx 1
        [decMateEx, decMateEx]).2 1 = some 0 ∧
      energyOf (mateTick cfgEx 0 (nestManagerNests cfgEx) rndEx 1
        [decMateEx, decMateEx]).2 0 = some decMateEx.energy ∧
      energyOf (mateTick cfgEx 0 (nestManagerNests cfgEx) rndEx 1
        [decMateEx, decMateEx]).2 1 = some decMateEx.energy ∧
      readyOf (mateTick cfgEx 0 (nestManagerNests cfgEx) rndEx 1
        [decMateEx, decMateEx]).2 0 = some true ∧
      readyOf (mateTick cfgEx 0 (nestManagerNests cfgEx) rndEx 1
        [decMateEx, decMateEx]).2 1 = some true) ∧
    (0 < cfgEx.matingCost → mateCost cfgEx true < mateCost cfgEx false) :=
  c8_mating_tick cfgEx rndEx 1 decMateEx decMateEx
    (Or.inr (Or.inr ⟨rfl, rfl, by
      norm_num [decNest, Nest.containsPt, distLe, dist2, decMateEx, readyAgent,
        mkCreature, cfgEx]⟩))
    rfl rfl rfl rfl rfl rfl rfl rfl rfl
    (by norm_num [decMateEx, readyAgent, mkCreature])
    (by norm_num [decMateEx, readyAgent, mkCreature, decGenomeEx, cfgEx])
    (by norm_num [decMateEx, readyAgent, mkCreature, decGenomeEx, cfgEx])
    (by norm_num [decMateEx, readyAgent, mkCreature, decGenomeEx])
    (by norm_num [decMateEx, readyAgent, mkCreature, decGenomeEx, cfgEx])

/-- C2 witness: the concrete prey pair's successful try_mate, with the
child-genome conclusions evaluated there. -/
theorem c2_child_genome_witness :
    genomeInBounds (mateChild cfgEx rndEx mateAEx mateAEx).genome ∧
    ∃ a c, ([mateAEx, mateAEx] : Store)[0]? = some a ∧
      ([mateAEx, mateAEx] : Store)[1]? = some c ∧
      (mateChild cfgEx rndEx mateAEx mateAEx).genome.is_decomposer =
        (a.genome.is_decomposer && c.genome.is_decomposer) := by
  refine c2_child_genome cfgEx 0 (nestManagerNests cfgEx) rndEx [mateAEx, mateAEx]
    ⟨mateChild cfgEx rndEx mateAEx mateAEx, 1⟩
    [clearedParent (mateCost cfgEx false) mateAEx,
     clearedParent (mateCost cfgEx false) mateAEx] ?_
  exact tryMate_prey_pair cfgEx rndEx mateAEx mateAEx rfl rfl
    (by norm_num [mateAEx, readyAgent, mkCreature, preyGenomeEx])
    (by norm_num [mateAEx, readyAgent, mkCreature, preyGenomeEx])
    rfl rfl rfl rfl rfl rfl rfl
    (by norm_num [preyNest, Nest.containsPt, distLe, dist2, mateAEx, readyAgent,
      mkCreature, cfgEx])
    (by norm_num [mateAEx, readyAgent, mkCreature, preyGenomeEx])
    (by norm_num [mateAEx, readyAgent, mkCreature, preyGenomeEx, cfgEx])

/-! ## Claim C1: mutual consistency of the partner relation -/

/-- A ready, unpaired forager at the prey nest center with expired call
cooldown; three copies form a caller and two in-range listeners. -/
def callerEx : Agent := readyAgent 200 375 preyGenomeEx

/-- Caller at index 0 and two eligible responders at indices 1 and 2. -/
def broadcastStoreEx : Store := [callerEx, callerEx, callerEx]

/-- C1 counterexample: broadcast_call visits both in-range responders in
order; each respond_to_call re-pairs the caller, so after the call agent 1
points at the caller while the caller points at agent 2 — the partner
relation is not mutually consistent. -/
theorem c1_counterexample :
    partnerOf (broadcastCall cfgEx 0 nestsEx broadcastStoreEx) 1 = some 0 ∧
    partnerOf (broadcastCall cfgEx 0 nestsEx broadcastStoreEx) 0 = some 2 ∧
    partnerOf (broadcastCall cfgEx 0 nestsEx broadcastStoreEx) 0 ≠ some 1 := by
  refine ⟨?_, ?_, ?_⟩ <;>
    norm_num [broadcastCall, broadcastVisit, respondToCall, updAt, partnerOf,
      callRange, getNest, nestsEx, nestManagerNests, canEnter, distLt, distLe,
      dist2, Nest.containsPt, cfgEx, broadcastStoreEx, callerEx, readyAgent,
      mkCreature, preyGenomeEx, List.range_succ]

/-- C1 (amended): each pairing-state operation is pairwise symmetric between
the two agents it touches — respond_to_call sets both partner references to
each other; the starvation override clears both sides; a completed mating
clears both mating parties — but the relation is not mutually consistent
globally: a second response to the same call re-points the caller and
orphans the first responder (see the counterexample), and the timeout
abandonment clears only the partner's side, leaving the abandoner's own
reference set. -/
theorem c1_partner_symmetry :
    (∀ (cfg : Config) (i caller : ℕ) (s : Store) (a : Agent),
      s[i]? = some a → caller < s.length → a.ready_to_mate = true →
      a.alive = true → a.partner = none → i ≠ caller →
      partnerOf (respondToCall cfg i caller s) i = some caller ∧
      partnerOf (respondToCall cfg i caller s) caller = some i) ∧
    (∀ (cfg : Config) (i : ℕ) (escapeP noise : ℚ) (s : Store) (a : Agent) (p : ℕ),
      s[i]? = some a → a.energy < a.energy_max * (35/100) → a.partner = some p →
      p ≠ i →
      partnerOf ((decideBehavior cfg i escapeP noise s).2) i = none ∧
      partnerOf ((decideBehavior cfg i escapeP noise s).2) p = none) ∧
    (∀ (cfg : Config) (i : ℕ) (nests : List Nest) (rnd : MateRand) (s : Store)
      (res : MateSuccess) (s' : Store),
      tryMate cfg i nests rnd s = (some res, s') →
      partnerOf s' i = none ∧ partnerOf s' res.mateIdx = none) ∧
    (∀ (i : ℕ) (dt : ℚ) (s : Store) (a q : Agent) (p : ℕ),
      s[i]? = some a → a.partner = some p → s[p]? = some q → q.alive = true →
      p ≠ i → a.mate_attempt_timer + dt > 8 →
      partnerOf (mateTimeoutStep i dt s) p = none ∧
      partnerOf (mateTimeoutStep i dt s) i = some p) := by
  refine ⟨?_, ?_, ?_, ?_⟩
  · -- respond_to_call pairs both sides symmetrically
    intro cfg i caller s a hsi hcal hready halive hpart hic
    have hlen : i < s.length := getElem?_some_lt hsi
    obtain ⟨c, hc⟩ : ∃ c, s[caller]? = some c :=
      ⟨_, List.getElem?_eq_getElem hcal⟩
    unfold respondToCall
    rw [hsi]
    dsimp only
    rw [if_neg (by simp [hready, halive, hpart])]
    constructor
    · unfold partnerOf
      rw [updAt_getElem_ne _ caller i _ (fun hh => hic hh.symm),
        List.getElem?_set_eq_of_lt _ hlen]
    · unfold partnerOf
      rw [updAt_getElem_self, List.getElem?_set_ne hic, hc]
      rfl
  · -- the starvation override clears both sides
    intro cfg i escapeP noise s a p hsi hstarve hp hpi
    unfold decideBehavior
    rw [hsi]
    dsimp only
    rw [if_pos hstarve, hp]
    dsimp only
    constructor
    · unfold partnerOf
      rw [updAt_getElem_self, updAt_getElem_ne _ p i _ hpi,
        List.getElem?_set_eq_of_lt _ (getElem?_some_lt hsi)]
      rfl
    · unfold partnerOf
      rw [updAt_getElem_ne _ i p _ (fun hh => hpi hh.symm), updAt_getElem_self,
        List.getElem?_set_ne (fun hh => hpi hh.symm)]
      cases s[p]? <;> rfl
  · -- a completed mating clears both mating parties
    intro cfg i nests rnd s res s' h
    obtain ⟨a, d2, _, hsucc, _⟩ := tryMate_success_inv cfg i nests rnd s res s' h
    exact mateSucceed_store cfg i res.mateIdx rnd d2 s res s' hsucc
  · -- the timeout abandonment clears only the partner's side
    intro i dt s a q p hsi hp hsp halive hpi htime
    unfold mateTimeoutStep
    rw [hsi]
    dsimp only
    rw [hp]
    dsimp only
    rw [hsp]
    dsimp only
    rw [halive]
    simp only [Bool.not_true, Bool.false_eq_true, if_false]
    rw [hsi]
    dsimp only
    rw [hp]
    dsimp only
    rw [if_pos htime]
    constructor
    · unfold partnerOf
      rw [updAt_getElem_ne _ i p _ (fun hh => hpi hh.symm), updAt_getElem_self, hsp]
      rfl
    · unfold partnerOf
      rw [updAt_getElem_self, updAt_getElem_ne _ p i _ hpi, hsi]
      exact hp

/-- C1 witness: each conjunct of the amended symmetry theorem applied at a
concrete input. -/
theorem c1_partner_symmetry_witness :
    (partnerOf (respondToCall cfgEx 0 1 [callerEx, callerEx]) 0 = some 1 ∧
      partnerOf (respondToCall cfgEx 0 1 [callerEx, callerEx]) 1 = some 0) ∧
    (partnerOf ((decideBehavior cfgEx 0 0 0
        [starvingAgentEx, starvingPartnerEx]).2) 0 = none ∧
      partnerOf ((decideBehavior cfgEx 0 0 0
        [starvingAgentEx, starvingPartnerEx]).2) 1 = none) ∧
    (partnerOf [clearedParent (mateCost cfgEx false) mateAEx,
        clearedParent (mateCost cfgEx false) mateAEx] 0 = none ∧
      partnerOf [clearedParent (mateCost cfgEx false) mateAEx,
        clearedParent (mateCost cfgEx false) mateAEx] 1 = none) ∧
    (partnerOf (mateTimeoutStep 0 1 [timedOutAgentEx, timedOutPartnerEx]) 1 = none ∧
      partnerOf (mateTimeoutStep 0 1 [timedOutAgentEx, timedOutPartnerEx]) 0 = some 1) := by
  refine ⟨?_, ?_, ?_, ?_⟩
  · exact c1_partner_symmetry.1 cfgEx 0 1 [callerEx, callerEx] callerEx rfl
      (by norm_num) rfl rfl rfl (by norm_num)
  · exact c1_partner_symmetry.2.1 cfgEx 0 0 0 [starvingAgentEx, starvingPartnerEx]
      starvingAgentEx 1 rfl
      (by norm_num [starvingAgentEx, readyAgent, mkCreature, preyGenomeEx, cfgEx])
      rfl (by norm_num)
  · exact c1_partner_symmetry.2.2.1 cfgEx 0 (nestManagerNests cfgEx) rndEx
      [mateAEx, mateAEx] ⟨mateChild cfgEx rndEx mateAEx mateAEx, 1⟩
      [clearedParent (mateCost cfgEx false) mateAEx,
       clearedParent (mateCost cfgEx false) mateAEx]
      (tryMate_prey_pair cfgEx rndEx mateAEx mateAEx rfl rfl
        (by norm_num [mateAEx, readyAgent, mkCreature, preyGenomeEx])
        (by norm_num [mateAEx, readyAgent, mkCreature, preyGenomeEx])
        rfl rfl rfl rfl rfl rfl rfl
        (by norm_num [preyNest, Nest.containsPt, distLe, dist2, mateAEx,
          readyAgent, mkCreature, cfgEx])
        (by norm_num [mateAEx, readyAgent, mkCreature, preyGenomeEx])
        (by norm_num [mateAEx, readyAgent, mkCreature, preyGenomeEx, cfgEx]))
  · exact c1_partner_symmetry.2.2.2 0 1 [timedOutAgentEx, timedOutPartnerEx]
      timedOutAgentEx timedOutPartnerEx 1 rfl rfl rfl rfl (by norm_num)
      (by norm_num [timedOutAgentEx, readyAgent, mkCreature, preyGenomeEx])

/-! ## Claim C4: one emit + one update on a fresh field -/

/-- The grid after a single strength-1 food emission into a zero grid: 0.9
at the emission cell, 0 elsewhere. -/
def emitted (r c : ℤ) : Grid := fun r' c' => if r' = r ∧ c' = c then 9/10 else 0

/-- The field after emitting food with strength 1 at (x, y) on a fresh
field. -/
def c4Field (width height : ℕ) (x y : ℚ) : ScentField :=
  (mkScentField width height).emit x y "food" 1

/-- The field after the subsequent single update call. -/
def c4Post (width height : ℕ) (x y dt : ℚ) : ScentField :=
  (c4Field width height x y).update dt

lemma c4Field_food (width height : ℕ) (x y : ℚ) (r c : ℤ)
    (hcx : ⌊x / cellSize⌋ = c) (hry : ⌊y / cellSize⌋ = r)
    (h2r : 2 ≤ r) (hr3 : r + 3 ≤ ((mkScentField width height).rows : ℤ))
    (h2c : 2 ≤ c) (hc3 : c + 3 ≤ ((mkScentField width height).cols : ℤ)) :
    (c4Field width height x y).food = emitted r c := by
  unfold c4Field ScentField.emit
  rw [show scentTypeOfString "food" = some ScentType.food from rfl]
  dsimp only
  rw [hcx, hry, if_pos ⟨by omega, by omega, by omega, by omega⟩]
  funext r' c'
  show (if r' = r ∧ c' = c then clamp ((mkScentField width height).food r c + 1 * (9/10)) 0 1
    else (mkScentField width height).food r' c') = emitted r c r' c'
  unfold emitted mkScentField clamp
  dsimp only
  split
  · norm_num
  · rfl

lemma emitted_nonneg (r c r' c' : ℤ) : 0 ≤ emitted r c r' c' := by
  unfold emitted
  split <;> norm_num

lemma diffuseStep_emitted_nonneg (R C : ℕ) (r c r' c' : ℤ) :
    0 ≤ diffuseStep R C (emitted r c) r' c' := by
  unfold diffuseStep
  split
  · have h0 := emitted_nonneg r c r' c'
    have h1 := emitted_nonneg r c (r' - 1) c'
    have h2 := emitted_nonneg r c (r' + 1) c'
    have h3 := emitted_nonneg r c r' (c' - 1)
    have h4 := emitted_nonneg r c r' (c' + 1)
    unfold diffuseRate
    linarith
  · exact emitted_nonneg r c r' c'

lemma diffuseStep_emitted_center (R C : ℕ) (r c : ℤ)
    (h2r : 2 ≤ r) (hr3 : r + 3 ≤ (R : ℤ)) (h2c : 2 ≤ c) (hc3 : c + 3 ≤ (C : ℤ)) :
    diffuseStep R C (emitted r c) r c = 27/250 := by
  have hne1 : ¬(r - 1 = r ∧ c = c) := by omega
  have hne2 : ¬(r + 1 = r ∧ c = c) := by omega
  have hne3 : ¬(r = r ∧ c - 1 = c) := by omega
  have hne4 : ¬(r = r ∧ c + 1 = c) := by omega
  unfold diffuseStep emitted diffuseRate
  rw [if_pos ⟨by omega, by omega, by omega, by omega⟩, if_pos ⟨rfl, rfl⟩,
    if_neg hne1, if_neg hne2, if_neg hne3, if_neg hne4]
  norm_num

lemma diffuseStep_emitted_up (R C : ℕ) (r c : ℤ)
    (h2r : 2 ≤ r) (hr3 : r + 3 ≤ (R : ℤ)) (h2c : 2 ≤ c) (hc3 : c + 3 ≤ (C : ℤ)) :
    diffuseStep R C (emitted r c) (r - 1) c = 99/500 := by
  have hne0 : ¬(r - 1 = r ∧ c = c) := by omega
  have hne1 : ¬(r - 1 - 1 = r ∧ c = c) := by omega
  have hne3 : ¬(r - 1 = r ∧ c - 1 = c) := by omega
  have hne4 : ¬(r - 1 = r ∧ c + 1 = c) := by omega
  unfold diffuseStep emitted diffuseRate
  rw [if_pos ⟨by omega, by omega, by omega, by omega⟩, if_neg hne0, if_neg hne1,
    if_pos ⟨by omega, rfl⟩, if_neg hne3, if_neg hne4]
  norm_num

lemma diffuseStep_emitted_down (R C : ℕ) (r c : ℤ)
    (h2r : 2 ≤ r) (hr3 : r + 3 ≤ (R : ℤ)) (h2c : 2 ≤ c) (hc3 : c + 3 ≤ (C : ℤ)) :
    diffuseStep R C (emitted r c) (r + 1) c = 99/500 := by
  have hne0 : ¬(r + 1 = r ∧ c = c) := by omega
  have hne2 : ¬(r + 1 + 1 = r ∧ c = c) := by omega
  have hne3 : ¬(r + 1 = r ∧ c - 1 = c) := by omega
  have hne4 : ¬(r + 1 = r ∧ c + 1 = c) := by omega
  unfold diffuseStep emitted diffuseRate
  rw [if_pos ⟨by omega, by omega, by omega, by omega⟩, if_neg hne0,
    if_pos ⟨by omega, rfl⟩, if_neg hne2, if_neg hne3, if_neg hne4]
  norm_num

lemma diffuseStep_emitted_left (R C : ℕ) (r c : ℤ)
    (h2r : 2 ≤ r) (hr3 : r + 3 ≤ (R : ℤ)) (h2c : 2 ≤ c) (hc3 : c + 3 ≤ (C : ℤ)) :
    diffuseStep R C (emitted r c) r (c - 1) = 99/500 := by
  have hne0 : ¬(r = r ∧ c - 1 = c) := by omega
  have hne1 : ¬(r - 1 = r ∧ c - 1 = c) := by omega
  have hne2 : ¬(r + 1 = r ∧ c - 1 = c) := by omega
  have hne3 : ¬(r = r ∧ c - 1 - 1 = c) := by omega
  unfold diffuseStep emitted diffuseRate
  rw [if_pos ⟨by omega, by omega, by omega, by omega⟩, if_neg hne0, if_neg hne1,
    if_neg hne2, if_neg hne3, if_pos ⟨rfl, by omega⟩]
  norm_num

lemma diffuseStep_emitted_right (R C : ℕ) (r c : ℤ)
    (h2r : 2 ≤ r) (hr3 : r + 3 ≤ (R : ℤ)) (h2c : 2 ≤ c) (hc3 : c + 3 ≤ (C : ℤ)) :
    diffuseStep R C (emitted r c) r (c + 1) = 99/500 := by
  have hne0 : ¬(r = r ∧ c + 1 = c) := by omega
  have hne1 : ¬(r - 1 = r ∧ c + 1 = c) := by omega
  have hne2 : ¬(r + 1 = r ∧ c + 1 = c) := by omega
  have hne4 : ¬(r = r ∧ c + 1 + 1 = c) := by omega
  unfold diffuseStep emitted diffuseRate
  rw [if_pos ⟨by omega, by omega, by omega, by omega⟩, if_neg hne0, if_neg hne1,
    if_neg hne2, if_pos ⟨rfl, by omega⟩, if_neg hne4]
  norm_num

lemma diffuse_emitted_value (R C : ℕ) (r c r' c' : ℤ) (v : ℚ)
    (hval : 0 ≤ r' ∧ r' < (R : ℤ) ∧ 0 ≤ c' ∧ c' < (C : ℤ))
    (hD : diffuseStep R C (emitted r c) r' c' = v)
    (hv0 : 0 ≤ v) (hv1 : v * (39/40) ≤ 1) :
    diffuse R C false (emitted r c) r' c' = v * (39/40) := by
  unfold diffuse
  rw [if_pos hval]
  show min 1 (max 0 (diffuseStep R C (emitted r c) r' c' *
    (1 - decayRate * 1))) = v * (39/40)
  rw [hD]
  unfold decayRate
  rw [show (1 : ℚ) - 25/1000 * 1 = 39/40 from by norm_num]
  rw [max_eq_right (mul_nonneg hv0 (by norm_num)), min_eq_right hv1]

lemma diffuse_le_step (R C : ℕ) (r c r' c' : ℤ)
    (hval : 0 ≤ r' ∧ r' < (R : ℤ) ∧ 0 ≤ c' ∧ c' < (C : ℤ)) :
    diffuse R C false (emitted r c) r' c' ≤ diffuseStep R C (emitted r c) r' c' := by
  have hD := diffuseStep_emitted_nonneg R C r c r' c'
  unfold diffuse
  rw [if_pos hval]
  show min 1 (max 0 (diffuseStep R C (emitted r c) r' c' * (1 - decayRate * 1))) ≤ _
  unfold decayRate
  have h1 : diffuseStep R C (emitted r c) r' c' * (1 - 25/1000 * 1) ≤
      diffuseStep R C (emitted r c) r' c' := by nlinarith
  calc min 1 (max 0 (diffuseStep R C (emitted r c) r' c' * (1 - 25/1000 * 1)))
      ≤ max 0 (diffuseStep R C (emitted r c) r' c' * (1 - 25/1000 * 1)) :=
        min_le_right _ _
    _ = diffuseStep R C (emitted r c) r' c' * (1 - 25/1000 * 1) :=
        max_eq_right (mul_nonneg hD (by norm_num))
    _ ≤ diffuseStep R C (emitted r c) r' c' := h1

lemma c4Post_food (width height : ℕ) (x y dt : ℚ) (r c : ℤ)
    (hcx : ⌊x / cellSize⌋ = c) (hry : ⌊y / cellSize⌋ = r)
    (h2r : 2 ≤ r) (hr3 : r + 3 ≤ ((mkScentField width height).rows : ℤ))
    (h2c : 2 ≤ c) (hc3 : c + 3 ≤ ((mkScentField width height).cols : ℤ)) :
    (c4Post width height x y dt).food =
      diffuse (mkScentField width height).rows (mkScentField width height).cols
        false (emitted r c) := by
  unfold c4Post ScentField.update
  dsimp only
  rw [show (c4Field width height x y).rows = (mkScentField width height).rows from
      emit_rows _ _ _ _ _,
    show (c4Field width height x y).cols = (mkScentField width height).cols from
      emit_cols _ _ _ _ _,
    c4Field_food width height x y r c hcx hry h2r hr3 h2c hc3]

/-- C4 (amended): emitting scent type "food" with strength 1.0 at a cell at
least two cells from every border of a fresh field and calling update once
yields: each of the four orthogonal neighbor cells has positive
concentration strictly GREATER than the emission cell's (with
DIFFUSE_RATE = 0.22 the center keeps 0.9·0.12·0.975 = 0.1053 while each
neighbor receives 0.9·0.22·0.975 = 0.19305 — the spec's "strictly smaller"
has the comparison reversed), and the total grid mass is strictly smaller
than the pre-decay diffusion mass. -/
theorem c4_scent_scenario (width height : ℕ) (x y dt : ℚ) (r c : ℤ)
    (hcx : ⌊x / cellSize⌋ = c) (hry : ⌊y / cellSize⌋ = r)
    (h2r : 2 ≤ r) (hr3 : r + 3 ≤ ((mkScentField width height).rows : ℤ))
    (h2c : 2 ≤ c) (hc3 : c + 3 ≤ ((mkScentField width height).cols : ℤ)) :
    ((c4Post width height x y dt).food r c = 1053/10000 ∧
      (c4Post width height x y dt).food (r - 1) c = 3861/20000 ∧
      (c4Post width height x y dt).food (r + 1) c = 3861/20000 ∧
      (c4Post width height x y dt).food r (c - 1) = 3861/20000 ∧
      (c4Post width height x y dt).food r (c + 1) = 3861/20000) ∧
    (0 < (c4Post width height x y dt).food (r - 1) c ∧
      (c4Post width height x y dt).food r c <
        (c4Post width height x y dt).food (r - 1) c) ∧
    totalMass (mkScentField width height).rows (mkScentField width height).cols
        ((c4Post width height x y dt).food) <
      totalMass (mkScentField width height).rows (mkScentField width height).cols
        (diffuseStep (mkScentField width height).rows
          (mkScentField width height).cols ((c4Field width height x y).food)) := by
  have hfood := c4Post_food width height x y dt r c hcx hry h2r hr3 h2c hc3
  have hefood := c4Field_food width height x y r c hcx hry h2r hr3 h2c hc3
  have hvc : (0:ℤ) ≤ r ∧ r < ((mkScentField width height).rows : ℤ) ∧
      (0:ℤ) ≤ c ∧ c < ((mkScentField width height).cols : ℤ) :=
    ⟨by omega, by omega, by omega, by omega⟩
  have hvu : (0:ℤ) ≤ r - 1 ∧ r - 1 < ((mkScentField width height).rows : ℤ) ∧
      (0:ℤ) ≤ c ∧ c < ((mkScentField width height).cols : ℤ) :=
    ⟨by omega, by omega, by omega, by omega⟩
  have hvd : (0:ℤ) ≤ r + 1 ∧ r + 1 < ((mkScentField width height).rows : ℤ) ∧
      (0:ℤ) ≤ c ∧ c < ((mkScentField width height).cols : ℤ) :=
    ⟨by omega, by omega, by omega, by omega⟩
  have hvl : (0:ℤ) ≤ r ∧ r < ((mkScentField width height).rows : ℤ) ∧
      (0:ℤ) ≤ c - 1 ∧ c - 1 < ((mkScentField width height).cols : ℤ) :=
    ⟨by omega, by omega, by omega, by omega⟩
  have hvr : (0:ℤ) ≤ r ∧ r < ((mkScentField width height).rows : ℤ) ∧
      (0:ℤ) ≤ c + 1 ∧ c + 1 < ((mkScentField width height).cols : ℤ) :=
    ⟨by omega, by omega, by omega, by omega⟩
  have hc0 : (c4Post width height x y dt).food r c = 1053/10000 := by
    rw [hfood, diffuse_emitted_value _ _ r c r c (27/250) hvc
      (diffuseStep_emitted_center _ _ r c h2r hr3 h2c hc3) (by norm_num) (by norm_num)]
    norm_num
  have hcu : (c4Post width height x y dt).food (r - 1) c = 3861/20000 := by
    rw [hfood, diffuse_emitted_value _ _ r c (r - 1) c (99/500) hvu
      (diffuseStep_emitted_up _ _ r c h2r hr3 h2c hc3) (by norm_num) (by norm_num)]
    norm_num
  have hcd : (c4Post width height x y dt).food (r + 1) c = 3861/20000 := by
    rw [hfood, diffuse_emitted_value _ _ r c (r + 1) c (99/500) hvd
      (diffuseStep_emitted_down _ _ r c h2r hr3 h2c hc3) (by norm_num) (by norm_num)]
    norm_num
  have hcl : (c4Post width height x y dt).food r (c - 1) = 3861/20000 := by
    rw [hfood, diffuse_emitted_value _ _ r c r (c - 1) (99/500) hvl
      (diffuseStep_emitted_left _ _ r c h2r hr3 h2c hc3) (by norm_num) (by norm_num)]
    norm_num
  have hcr : (c4Post width height x y dt).food r (c + 1) = 3861/20000 := by
    rw [hfood, diffuse_emitted_value _ _ r c r (c + 1) (99/500) hvr
      (diffuseStep_emitted_right _ _ r c h2r hr3 h2c hc3) (by norm_num) (by norm_num)]
    norm_num
  refine ⟨⟨hc0, hcu, hcd, hcl, hcr⟩, ⟨by rw [hcu]; norm_num, by rw [hc0, hcu]; norm_num⟩, ?_⟩
  rw [hfood, hefood]
  unfold totalMass
  have hle : ∀ i ∈ Finset.range (mkScentField width height).rows,
      ∑ j ∈ Finset.range (mkScentField width height).cols,
        diffuse (mkScentField width height).rows (mkScentField width height).cols
          false (emitted r c) (i : ℤ) (j : ℤ) ≤
      ∑ j ∈ Finset.range (mkScentField width height).cols,
        diffuseStep (mkScentField width height).rows (mkScentField width height).cols
          (emitted r c) (i : ℤ) (j : ℤ) := by
    intro i hi
    refine Finset.sum_le_sum fun j hj => ?_
    refine diffuse_le_step _ _ r c _ _ ⟨by positivity, ?_, by positivity, ?_⟩
    · exact_mod_cast Finset.mem_range.mp hi
    · exact_mod_cast Finset.mem_range.mp hj
  refine Finset.sum_lt_sum hle ⟨r.toNat, Finset.mem_range.mpr (by omega), ?_⟩
  have hrc : ((r.toNat : ℤ)) = r := Int.toNat_of_nonneg (by omega)
  refine Finset.sum_lt_sum ?_ ⟨c.toNat, Finset.mem_range.mpr (by omega), ?_⟩
  · intro j hj
    refine diffuse_le_step _ _ r c _ _ ⟨by positivity, ?_, by positivity, ?_⟩
    · rw [hrc]; omega
    · exact_mod_cast Finset.mem_range.mp hj
  · have hcc : ((c.toNat : ℤ)) = c := Int.toNat_of_nonneg (by omega)
    rw [hrc, hcc]
    have hpost : diffuse (mkScentField width height).rows
        (mkScentField width height).cols false (emitted r c) r c = 1053/10000 := by
      rw [← hfood]; exact hc0
    rw [hpost, diffuseStep_emitted_center _ _ r c h2r hr3 h2c hc3]
    norm_num

/-- C4 counterexample: on a 7×7 field, emitting food strength 1.0 at the
interior cell (3,3) and updating once leaves the emission cell at 0.1053
and its neighbor (2,3) at 0.19305 — the neighbor is NOT strictly smaller
than the emission cell; it is strictly larger. -/
theorem c4_counterexample :
    ¬((c4Post 175 175 (175/2) (175/2) (8/100)).food 2 3 <
        (c4Post 175 175 (175/2) (175/2) (8/100)).food 3 3) ∧
    (c4Post 175 175 (175/2) (175/2) (8/100)).food 3 3 <
      (c4Post 175 175 (175/2) (175/2) (8/100)).food 2 3 := by
  have h1 := c4Post_food 175 175 (175/2) (175/2) (8/100) 3 3 (by norm_num [cellSize])
    (by norm_num [cellSize]) (by norm_num) (by norm_num [mkScentField]) (by norm_num)
    (by norm_num [mkScentField])
  have hcenter : (c4Post 175 175 (175/2) (175/2) (8/100)).food 3 3 = 1053/10000 := by
    rw [h1, diffuse_emitted_value _ _ 3 3 3 3 (27/250)
      ⟨by norm_num, by norm_num [mkScentField], by norm_num, by norm_num [mkScentField]⟩
      (diffuseStep_emitted_center _ _ 3 3 (by norm_num) (by norm_num [mkScentField])
        (by norm_num) (by norm_num [mkScentField])) (by norm_num) (by norm_num)]
    norm_num
  have hup : (c4Post 175 175 (175/2) (175/2) (8/100)).food 2 3 = 3861/20000 := by
    rw [h1, show ((2 : ℤ)) = 3 - 1 from by norm_num,
      diffuse_emitted_value _ _ 3 3 (3 - 1) 3 (99/500)
      ⟨by norm_num, by norm_num [mkScentField], by norm_num, by norm_num [mkScentField]⟩
      (diffuseStep_emitted_up _ _ 3 3 (by norm_num) (by norm_num [mkScentField])
        (by norm_num) (by norm_num [mkScentField])) (by norm_num) (by norm_num)]
    norm_num
  rw [hcenter, hup]
  norm_num

/-- C4 witness: the amended scenario applied to the concrete 7×7 field with
the emission at cell (3,3). -/
theorem c4_scent_scenario_witness :
    ((c4Post 175 175 (175/2) (175/2) (8/100)).food 3 3 = 1053/10000 ∧
      (c4Post 175 175 (175/2) (175/2) (8/100)).food (3 - 1) 3 = 3861/20000 ∧
      (c4Post 175 175 (175/2) (175/2) (8/100)).food (3 + 1) 3 = 3861/20000 ∧
      (c4Post 175 175 (175/2) (175/2) (8/100)).food 3 (3 - 1) = 3861/20000 ∧
      (c4Post 175 175 (175/2) (175/2) (8/100)).food 3 (3 + 1) = 3861/20000) ∧
    (0 < (c4Post 175 175 (175/2) (175/2) (8/100)).food (3 - 1) 3 ∧
      (c4Post 175 175 (175/2) (175/2) (8/100)).food 3 3 <
        (c4Post 175 175 (175/2) (175/2) (8/100)).food (3 - 1) 3) ∧
    totalMass (mkScentField 175 175).rows (mkScentField 175 175).cols
        ((c4Post 175 175 (175/2) (175/2) (8/100)).food) <
      totalMass (mkScentField 175 175).rows (mkScentField 175 175).cols
        (diffuseStep (mkScentField 175 175).rows (mkScentField 175 175).cols
          ((c4Field 175 175 (175/2) (175/2)).food)) :=
  c4_scent_scenario 175 175 (175/2) (175/2) (8/100) 3 3 (by norm_num [cellSize])
    (by norm_num [cellSize]) (by norm_num) (by norm_num [mkScentField]) (by norm_num)
    (by norm_num [mkScentField])

end Desert
